import Mathlib

/-!
Shallow embedding of the NYC taxi validation-and-cleaning pipeline:
`src/pyspark/utils/common_functions.py`,
`src/pyspark/jobs/data_validation_cleaning.py`, and
`src/pyspark/jobs/trip_metrics_aggregation.py`.

Modelling conventions:

* A Spark `DataFrame` is a schema (list of column names) together with a list
  of rows; a row maps a column name to an optional value (`none` is SQL NULL).
* Numeric values (doubles, longs, timestamps) are modelled as rationals.  A
  timestamp is identified with its unix-second count, so `to_timestamp` and
  `unix_timestamp` both act as the identity on numeric values and yield NULL
  on anything else.
* Spark column expressions are embedded as the inductive `Expr`.  Evaluation
  follows Spark SQL semantics: comparisons and arithmetic are NULL
  propagating, `AND`/`OR` use three-valued logic, division by zero yields
  NULL, and `when(c, t).otherwise(e)` takes the `otherwise` branch unless the
  condition evaluates to exactly TRUE.
* Referencing a column that is absent from the schema is an analysis error in
  Spark (raised even on an empty dataset), so `withColumn`, `filterE`,
  `orderBy` and `groupAgg` perform a static reference check and return
  `Except PipelineError`.
* Python string methods `lower()` and `replace(" ", "_")` are modelled
  character-wise (column names in this dataset are ASCII).
-/

namespace NycTaxi

/-- A single Spark SQL value (the columns used by the pipeline hold doubles,
longs, timestamps — all modelled as `ℚ` — strings, or booleans). -/
inductive Val where
  | num (q : ℚ)
  | str (s : String)
  | bool (b : Bool)
deriving DecidableEq

/-- A row maps a column name to its value; `none` is SQL NULL. -/
abbrev Row := String → Option Val

/-- A dataframe: schema plus rows. -/
structure DataFrame where
  cols : List String
  rows : List Row

/-- Fatal analysis errors of the pipeline: a missing required column list
(`ValueError` in `validate_required_columns`) or Spark resolving a column
that is absent from the schema (`AnalysisException`). -/
inductive PipelineError where
  | missingColumns (cols : List String)
  | unresolvedColumns (cols : List String)
deriving DecidableEq

/-- Extract a numeric value. -/
def asNum : Option Val → Option ℚ
  | some (Val.num q) => some q
  | _ => none

/-- Extract a boolean value. -/
def asBool3 : Option Val → Option Bool
  | some (Val.bool b) => some b
  | _ => none

/-- Three-valued (Kleene) conjunction, as in Spark SQL. -/
def and3 : Option Bool → Option Bool → Option Bool
  | some false, _ => some false
  | some true, some true => some true
  | some true, some false => some false
  | some true, none => none
  | none, some false => some false
  | none, _ => none

/-- Three-valued (Kleene) disjunction, as in Spark SQL. -/
def or3 : Option Bool → Option Bool → Option Bool
  | some true, _ => some true
  | some false, some b => some b
  | some false, none => none
  | none, some true => some true
  | none, _ => none

/-- NULL-propagating numeric comparison. -/
def cmp3 (f : ℚ → ℚ → Bool) (a b : Option Val) : Option Val :=
  match asNum a, asNum b with
  | some x, some y => some (Val.bool (f x y))
  | _, _ => none

/-- NULL-propagating arithmetic. -/
def arith3 (f : ℚ → ℚ → ℚ) (a b : Option Val) : Option Val :=
  match asNum a, asNum b with
  | some x, some y => some (Val.num (f x y))
  | _, _ => none

/-- NULL-propagating division; Spark SQL yields NULL on division by zero. -/
def div3 (a b : Option Val) : Option Val :=
  match asNum a, asNum b with
  | some x, some y => if y = 0 then none else some (Val.num (x / y))
  | _, _ => none

/-- Civil date from a count of days since 1970-01-01 (proleptic Gregorian,
the standard era-based conversion used by date libraries). Returns
`(year, month, day)`. -/
def civilFromDays (z0 : ℤ) : ℤ × ℤ × ℤ :=
  let z := z0 + 719468
  let era : ℤ := Int.fdiv z 146097
  let doe : ℤ := z - era * 146097
  let yoe : ℤ := (doe - doe / 1460 + doe / 36524 - doe / 146096) / 365
  let y : ℤ := yoe + era * 400
  let doy : ℤ := doe - (365 * yoe + yoe / 4 - yoe / 100)
  let mp : ℤ := (5 * doy + 2) / 153
  let d : ℤ := doy - (153 * mp + 2) / 5 + 1
  let m : ℤ := mp + (if mp < 10 then 3 else -9)
  (if m ≤ 2 then y + 1 else y, m, d)

/-- Days since the epoch of a unix-second timestamp. -/
def tsDays (q : ℚ) : ℤ := Int.fdiv ⌊q⌋ 86400

/-- Seconds elapsed within the day. -/
def tsSecsOfDay (q : ℚ) : ℤ := ⌊q⌋ - tsDays q * 86400

/-- `year()` of a timestamp. -/
def tsYear (q : ℚ) : ℤ := (civilFromDays (tsDays q)).1

/-- `month()` of a timestamp. -/
def tsMonth (q : ℚ) : ℤ := (civilFromDays (tsDays q)).2.1

/-- Day of month of a timestamp. -/
def tsDay (q : ℚ) : ℤ := (civilFromDays (tsDays q)).2.2

/-- `hour()` of a timestamp. -/
def tsHour (q : ℚ) : ℤ := tsSecsOfDay q / 3600

/-- `dayofweek()` of a timestamp (Spark convention: 1 = Sunday; the epoch
1970-01-01 was a Thursday, i.e. 5). -/
def tsDayOfWeek (q : ℚ) : ℤ := Int.emod (tsDays q + 4) 7 + 1

/-- Zero-pad to two digits. -/
def pad2 (n : ℤ) : String := if 0 ≤ n ∧ n < 10 then "0" ++ toString n else toString n

/-- Zero-pad to four digits (years in this dataset are 1970..2025). -/
def pad4 (n : ℤ) : String :=
  if 0 ≤ n ∧ n < 10 then "000" ++ toString n
  else if 0 ≤ n ∧ n < 100 then "00" ++ toString n
  else if 0 ≤ n ∧ n < 1000 then "0" ++ toString n
  else toString n

/-- `date_format(ts, "yyyy-MM-dd")`. -/
def tsDateStr (q : ℚ) : String :=
  pad4 (tsYear q) ++ "-" ++ pad2 (tsMonth q) ++ "-" ++ pad2 (tsDay q)

/-- Spark column expressions used by the pipeline.  `toTs` models both
`to_timestamp` and `unix_timestamp` (identity on the numeric timestamp model,
NULL otherwise); `dateFmt` models `date_format`. -/
inductive Expr where
  | lit (v : Val)
  | nullLit
  | col (name : String)
  | gt (a b : Expr)
  | ge (a b : Expr)
  | lt (a b : Expr)
  | le (a b : Expr)
  | and (a b : Expr)
  | or (a b : Expr)
  | add (a b : Expr)
  | sub (a b : Expr)
  | mul (a b : Expr)
  | div (a b : Expr)
  | isNull (a : Expr)
  | isNotNull (a : Expr)
  | ite (c t e : Expr)
  | isin (a : Expr) (vs : List Val)
  | toTs (a : Expr)
  | yearE (a : Expr)
  | monthE (a : Expr)
  | hourE (a : Expr)
  | dowE (a : Expr)
  | dateFmt (a : Expr) (fmt : String)

/-- Evaluate an expression on one row (Spark SQL NULL semantics). -/
def Expr.eval (r : Row) : Expr → Option Val
  | .lit v => some v
  | .nullLit => none
  | .col n => r n
  | .gt a b => cmp3 (fun x y => decide (y < x)) (a.eval r) (b.eval r)
  | .ge a b => cmp3 (fun x y => decide (y ≤ x)) (a.eval r) (b.eval r)
  | .lt a b => cmp3 (fun x y => decide (x < y)) (a.eval r) (b.eval r)
  | .le a b => cmp3 (fun x y => decide (x ≤ y)) (a.eval r) (b.eval r)
  | .and a b => (and3 (asBool3 (a.eval r)) (asBool3 (b.eval r))).map Val.bool
  | .or a b => (or3 (asBool3 (a.eval r)) (asBool3 (b.eval r))).map Val.bool
  | .add a b => arith3 (fun x y => x + y) (a.eval r) (b.eval r)
  | .sub a b => arith3 (fun x y => x - y) (a.eval r) (b.eval r)
  | .mul a b => arith3 (fun x y => x * y) (a.eval r) (b.eval r)
  | .div a b => div3 (a.eval r) (b.eval r)
  | .isNull a => some (Val.bool (a.eval r).isNone)
  | .isNotNull a => some (Val.bool !(a.eval r).isNone)
  | .ite c t e => if c.eval r = some (Val.bool true) then t.eval r else e.eval r
  | .isin a vs => (a.eval r).map (fun v => Val.bool (decide (v ∈ vs)))
  | .toTs a => (asNum (a.eval r)).map Val.num
  | .yearE a => (asNum (a.eval r)).map (fun q => Val.num (tsYear q))
  | .monthE a => (asNum (a.eval r)).map (fun q => Val.num (tsMonth q))
  | .hourE a => (asNum (a.eval r)).map (fun q => Val.num (tsHour q))
  | .dowE a => (asNum (a.eval r)).map (fun q => Val.num (tsDayOfWeek q))
  | .dateFmt a fmt =>
      (asNum (a.eval r)).map (fun q =>
        if fmt = "yyyy-MM-dd" then Val.str (tsDateStr q)
        else if fmt = "d" then Val.str (toString (tsDay q))
        else Val.str "")

/-- Column names referenced by an expression (resolved statically by Spark). -/
def Expr.refs : Expr → List String
  | .lit _ => []
  | .nullLit => []
  | .col n => [n]
  | .gt a b | .ge a b | .lt a b | .le a b | .and a b | .or a b
  | .add a b | .sub a b | .mul a b | .div a b => a.refs ++ b.refs
  | .isNull a | .isNotNull a | .toTs a | .yearE a | .monthE a
  | .hourE a | .dowE a => a.refs
  | .ite c t e => c.refs ++ t.refs ++ e.refs
  | .isin a _ => a.refs
  | .dateFmt a _ => a.refs

/-- Schema after `withColumn c`: replaced in place if present, appended else. -/
def insertCol (c : String) (cols : List String) : List String :=
  if c ∈ cols then cols else cols ++ [c]

/-- Set column `c` of a row to `v`. -/
def updRow (c : String) (v : Option Val) (r : Row) : Row :=
  fun n => if n = c then v else r n

/-- The data effect of `withColumn` (after the reference check passed). -/
def applyWith (c : String) (e : Expr) (df : DataFrame) : DataFrame :=
  ⟨insertCol c df.cols, df.rows.map (fun r => updRow c (e.eval r) r)⟩

/-- The data effect of `filter` (after the reference check passed): keep the
rows on which the predicate evaluates to exactly TRUE. -/
def applyFilter (e : Expr) (df : DataFrame) : DataFrame :=
  ⟨df.cols, df.rows.filter (fun r => decide (e.eval r = some (Val.bool true)))⟩

/-- Static reference check: every referenced column is in the schema. -/
def refsOk (e : Expr) (df : DataFrame) : Bool :=
  e.refs.all (fun n => decide (n ∈ df.cols))

/-- Columns referenced but absent, for the error payload. -/
def refsMissing (e : Expr) (df : DataFrame) : List String :=
  e.refs.filter (fun n => decide (n ∉ df.cols))

/-- `df.withColumn(c, e)`. -/
def DataFrame.withColumn (df : DataFrame) (c : String) (e : Expr) :
    Except PipelineError DataFrame :=
  if refsOk e df then .ok (applyWith c e df)
  else .error (.unresolvedColumns (refsMissing e df))

/-- `df.filter(e)`. -/
def DataFrame.filterE (df : DataFrame) (e : Expr) :
    Except PipelineError DataFrame :=
  if refsOk e df then .ok (applyFilter e df)
  else .error (.unresolvedColumns (refsMissing e df))

/-! Translations of the functions of `src/pyspark/utils/common_functions.py`
(Python names kept). -/

/-- Lowercase an ASCII character, as Python `str.lower()` does on this data. -/
def lowerChar (c : Char) : Char :=
  if 'A' ≤ c ∧ c ≤ 'Z' then Char.ofNat (c.toNat + 32) else c

/-- Python `s.lower()` (character-wise, ASCII column names). -/
def lowerName (s : String) : String := String.mk (s.data.map lowerChar)

/-- Python `s.lower().replace(" ", "_")`. -/
def normalizeName (s : String) : String :=
  String.mk (s.data.map (fun c => let l := lowerChar c; if l = ' ' then '_' else l))

/-- `validate_required_columns(df, required_columns)`: raise `ValueError`
listing the missing columns when any required column is absent, else return
the dataframe unchanged. -/
def validate_required_columns (df : DataFrame) (required_columns : List String) :
    Except PipelineError DataFrame :=
  let missing_columns := required_columns.filter (fun c => decide (c ∉ df.cols))
  if missing_columns = [] then .ok df
  else .error (.missingColumns missing_columns)

/-- `remove_null_values(df, columns)`: one `isNotNull` filter per column. -/
def remove_null_values (df : DataFrame) : List String → Except PipelineError DataFrame
  | [] => .ok df
  | c :: cs => do
    let d ← df.filterE (.isNotNull (.col c))
    remove_null_values d cs

/-- `df.withColumnRenamed(oldc, newc)`. -/
def renameColumn (df : DataFrame) (oldc newc : String) : DataFrame :=
  ⟨df.cols.map (fun c => if c = oldc then newc else c),
   df.rows.map (fun r => fun n => if n = newc then r oldc else r n)⟩

/-- Loop body of `standardize_column_names`, folding over the snapshot of the
original column list (Python evaluates `df.columns` once at loop entry). -/
def standardizeGo (d : DataFrame) : List String → DataFrame
  | [] => d
  | c :: cs =>
      let n := normalizeName c
      standardizeGo (if c ≠ n then renameColumn d c n else d) cs

/-- `standardize_column_names(df)`. -/
def standardize_column_names (df : DataFrame) : DataFrame :=
  standardizeGo df df.cols

/-- `filter_invalid_trips(df, fare_column, distance_column)`: keep
`fare ≥ 0` and `distance > 0`. -/
def filter_invalid_trips (df : DataFrame) (fare_column distance_column : String) :
    Except PipelineError DataFrame := do
  let df ← df.filterE (.ge (.col fare_column) (.lit (Val.num 0)))
  df.filterE (.gt (.col distance_column) (.lit (Val.num 0)))

/-- The fixed validity ceiling `unix_timestamp("2025-12-31 23:59:59")` of
`validate_trip_times` (unix seconds). -/
def nowBound : ℚ := 1767225599

/-- `validate_trip_times(df)`: parse the two datetime columns, require
dropoff strictly after pickup and both at most the fixed ceiling. -/
def validate_trip_times (df : DataFrame) : Except PipelineError DataFrame := do
  let df ← df.withColumn "pickup_ts" (.toTs (.col "tpep_pickup_datetime"))
  let df ← df.withColumn "dropoff_ts" (.toTs (.col "tpep_dropoff_datetime"))
  let df ← df.filterE (.gt (.col "dropoff_ts") (.col "pickup_ts"))
  let df ← df.filterE (.le (.toTs (.col "pickup_ts")) (.lit (Val.num nowBound)))
  df.filterE (.le (.toTs (.col "dropoff_ts")) (.lit (Val.num nowBound)))

/-- `calculate_trip_duration(df)`: minutes between dropoff and pickup. -/
def calculate_trip_duration (df : DataFrame) : Except PipelineError DataFrame :=
  df.withColumn "trip_duration_minutes"
    (.div (.sub (.toTs (.col "dropoff_ts")) (.toTs (.col "pickup_ts")))
      (.lit (Val.num 60)))

/-- `validate_trip_duration(df, min_minutes, max_minutes)` (defaults 1.0 and
1440.0 at the call sites). -/
def validate_trip_duration (df : DataFrame) (min_minutes max_minutes : ℚ) :
    Except PipelineError DataFrame :=
  df.filterE (.and (.ge (.col "trip_duration_minutes") (.lit (Val.num min_minutes)))
    (.le (.col "trip_duration_minutes") (.lit (Val.num max_minutes))))

/-- The speed expression of `calculate_trip_speed`:
`when(duration > 0, distance/(duration/60)).otherwise(None)`. -/
def speedExpr : Expr :=
  .ite (.gt (.col "trip_duration_minutes") (.lit (Val.num 0)))
    (.div (.col "trip_distance") (.div (.col "trip_duration_minutes") (.lit (Val.num 60))))
    .nullLit

/-- `calculate_trip_speed(df)`. -/
def calculate_trip_speed (df : DataFrame) : Except PipelineError DataFrame :=
  df.withColumn "trip_speed_mph" speedExpr

/-- `validate_trip_speed(df, min_mph, max_mph)` (defaults 1.0 and 100.0 at
the call sites): NULL speeds pass, otherwise the speed must lie in range. -/
def validate_trip_speed (df : DataFrame) (min_mph max_mph : ℚ) :
    Except PipelineError DataFrame :=
  df.filterE (.or (.isNull (.col "trip_speed_mph"))
    (.and (.ge (.col "trip_speed_mph") (.lit (Val.num min_mph)))
      (.le (.col "trip_speed_mph") (.lit (Val.num max_mph)))))

/-- The `key_columns` list of `remove_duplicates`. -/
def key_columns : List String :=
  ["tpep_pickup_datetime", "tpep_dropoff_datetime", "pulocationid",
   "dolocationid", "trip_distance", "fare_amount"]

/-- Projection of a row to a list of key columns. -/
def keyProj (ks : List String) (r : Row) : List (Option Val) := ks.map r

/-- `dropDuplicates(ks)`: keep the first row of each distinct key value. -/
def dedupRows (ks : List String) : List Row → List (List (Option Val)) → List Row
  | [], _ => []
  | r :: rs, seen =>
      if keyProj ks r ∈ seen then dedupRows ks rs seen
      else r :: dedupRows ks rs (keyProj ks r :: seen)

/-- The subset of `key_columns` present in the schema. -/
def existingKeyColumns (df : DataFrame) : List String :=
  key_columns.filter (fun c => decide (c ∈ df.cols))

/-- `remove_duplicates(df)`: deduplicate on the present key columns; if none
of them is present the dataframe is returned unchanged. -/
def remove_duplicates (df : DataFrame) : DataFrame :=
  let ks := existingKeyColumns df
  if ks = [] then df else ⟨df.cols, dedupRows ks df.rows []⟩

/-- `add_temporal_features(df)`: year/month/day/hour/day-of-week/date from
the pickup timestamp. -/
def add_temporal_features (df : DataFrame) : Except PipelineError DataFrame := do
  let df ← df.withColumn "pickup_year" (.yearE (.col "pickup_ts"))
  let df ← df.withColumn "pickup_month" (.monthE (.col "pickup_ts"))
  let df ← df.withColumn "pickup_day" (.dateFmt (.col "pickup_ts") "d")
  let df ← df.withColumn "pickup_hour" (.hourE (.col "pickup_ts"))
  let df ← df.withColumn "pickup_day_of_week" (.dowE (.col "pickup_ts"))
  df.withColumn "pickup_date" (.dateFmt (.col "pickup_ts") "yyyy-MM-dd")

/-- The tip-percentage expression of `add_derived_features`. -/
def tipExpr : Expr :=
  .ite (.gt (.col "total_amount") (.lit (Val.num 0)))
    (.mul (.div (.col "tip_amount") (.col "total_amount")) (.lit (Val.num 100)))
    (.lit (Val.num 0))

/-- The trip-length-category expression of `add_derived_features`
(`when(d < 2, "short").when(d < 5, "medium").otherwise("long")`). -/
def categoryExpr : Expr :=
  .ite (.lt (.col "trip_distance") (.lit (Val.num 2))) (.lit (Val.str "short"))
    (.ite (.lt (.col "trip_distance") (.lit (Val.num 5))) (.lit (Val.str "medium"))
      (.lit (Val.str "long")))

/-- Tip-percentage block of `add_derived_features` (guarded on presence of
`tip_amount` and `total_amount`). -/
def derivedTipStep (df : DataFrame) : Except PipelineError DataFrame :=
  if "tip_amount" ∈ df.cols ∧ "total_amount" ∈ df.cols then
    df.withColumn "tip_percentage" tipExpr
  else pure df

/-- Trip-length-category block of `add_derived_features`. -/
def derivedCategoryStep (df : DataFrame) : Except PipelineError DataFrame :=
  if "trip_distance" ∈ df.cols then
    df.withColumn "trip_length_category" categoryExpr
  else pure df

/-- Airport pickup-flag block of `add_derived_features`. -/
def derivedAirportPickupStep (df : DataFrame) : Except PipelineError DataFrame :=
  if "pulocationid" ∈ df.cols then
    df.withColumn "is_airport_pickup" (.isin (.col "pulocationid") [Val.num 1, Val.num 2, Val.num 3])
  else pure df

/-- Airport dropoff-flag block of `add_derived_features`. -/
def derivedAirportDropoffStep (df : DataFrame) : Except PipelineError DataFrame :=
  if "dolocationid" ∈ df.cols then
    df.withColumn "is_airport_dropoff" (.isin (.col "dolocationid") [Val.num 1, Val.num 2, Val.num 3])
  else pure df

/-- Airport trip-flag block of `add_derived_features`. -/
def derivedAirportTripStep (df : DataFrame) : Except PipelineError DataFrame :=
  if "is_airport_pickup" ∈ df.cols ∧ "is_airport_dropoff" ∈ df.cols then
    df.withColumn "is_airport_trip" (.or (.col "is_airport_pickup") (.col "is_airport_dropoff"))
  else pure df

/-- `add_derived_features(df)`: tip percentage, trip length category and
airport flags, each block guarded on schema presence of its inputs. -/
def add_derived_features (df : DataFrame) : Except PipelineError DataFrame := do
  let df ← derivedTipStep df
  let df ← derivedCategoryStep df
  let df ← derivedAirportPickupStep df
  let df ← derivedAirportDropoffStep df
  derivedAirportTripStep df

/-- `validate_passenger_count(df, max_passengers)` (default 6 at the call
site). -/
def validate_passenger_count (df : DataFrame) (max_passengers : ℚ) :
    Except PipelineError DataFrame :=
  df.filterE (.and (.ge (.col "passenger_count") (.lit (Val.num 0)))
    (.le (.col "passenger_count") (.lit (Val.num max_passengers))))

/-- The `has_valid_locations` expression of `add_quality_flags`. -/
def locFlagExpr : Expr :=
  .ite (.and (.isNotNull (.col "pulocationid")) (.isNotNull (.col "dolocationid")))
    (.lit (Val.bool true)) (.lit (Val.bool false))

/-- The `has_valid_payment` expression of `add_quality_flags`. -/
def payFlagExpr : Expr :=
  .ite (.isNotNull (.col "payment_type"))
    (.lit (Val.bool true)) (.lit (Val.bool false))

/-- `add_quality_flags(df)`: unconditionally references `pulocationid`,
`dolocationid` and `payment_type` (no schema-presence guard). -/
def add_quality_flags (df : DataFrame) : Except PipelineError DataFrame := do
  let df ← df.withColumn "has_valid_locations" locFlagExpr
  df.withColumn "has_valid_payment" payFlagExpr

/-- The `critical_columns` list of `data_validation_cleaning.main`. -/
def criticalColumns : List String :=
  ["tpep_pickup_datetime", "tpep_dropoff_datetime", "passenger_count",
   "trip_distance", "fare_amount", "total_amount"]

/-- The transformation core of `data_validation_cleaning.main` (S3 read and
write, Spark session and row-count logging are I/O and out of scope; the
returned dataframe is the one handed to `write_to_s3`). -/
def data_validation_cleaning_main (df0 : DataFrame) : Except PipelineError DataFrame := do
  let _ ← validate_required_columns df0 criticalColumns
  let df := standardize_column_names df0
  let df ← remove_null_values df (criticalColumns.map lowerName)
  let df ← validate_trip_times df
  let df ← calculate_trip_duration df
  let df ← validate_trip_duration df 1 1440
  let df ← calculate_trip_speed df
  let df ← validate_trip_speed df 1 100
  let df ← filter_invalid_trips df "fare_amount" "trip_distance"
  let df ← validate_passenger_count df 6
  let df := remove_duplicates df
  let df ← add_temporal_features df
  let df ← add_derived_features df
  add_quality_flags df

/-! Translation of `src/pyspark/jobs/trip_metrics_aggregation.py`. -/

/-- Aggregation functions used by the jobs. -/
inductive AggFn where
  | cnt
  | sum
  | avg
deriving DecidableEq

/-- One `agg(...)` item: output alias, function, input column (ignored for
`count("*")`). -/
structure AggSpec where
  outName : String
  fn : AggFn
  inCol : String

/-- Whether an aggregation item resolves against the schema. -/
def aggRefOk (cols : List String) (a : AggSpec) : Bool :=
  match a.fn with
  | .cnt => true
  | _ => decide (a.inCol ∈ cols)

/-- First-occurrence list of distinct values. -/
def distinctVals : List (Option Val) → List (Option Val) → List (Option Val)
  | [], _ => []
  | v :: vs, seen =>
      if v ∈ seen then distinctVals vs seen
      else v :: distinctVals vs (v :: seen)

/-- Value of one aggregate over a group (Spark skips NULLs in `sum`/`avg`
and returns NULL when every input is NULL). -/
def aggValue (a : AggSpec) (group : List Row) : Option Val :=
  match a.fn with
  | .cnt => some (Val.num group.length)
  | .sum =>
      let ns := group.filterMap (fun r => asNum (r a.inCol))
      if ns = [] then none else some (Val.num (ns.foldl (fun x y => x + y) 0))
  | .avg =>
      let ns := group.filterMap (fun r => asNum (r a.inCol))
      if ns = [] then none
      else some (Val.num (ns.foldl (fun x y => x + y) 0 / (ns.length : ℚ)))

/-- The data effect of `df.groupBy(key).agg(...)`. -/
def applyGroupAgg (key : String) (aggs : List AggSpec) (df : DataFrame) : DataFrame :=
  ⟨key :: aggs.map (fun a => a.outName),
   (distinctVals (df.rows.map (fun r => r key)) []).map (fun v =>
     let group := df.rows.filter (fun r => decide (r key = v))
     fun n =>
       if n = key then v
       else
         match aggs.find? (fun a => decide (a.outName = n)) with
         | some a => aggValue a group
         | none => none)⟩

/-- `df.groupBy(key).agg(...)` with the analysis-time reference check. -/
def groupAgg (key : String) (aggs : List AggSpec) (df : DataFrame) :
    Except PipelineError DataFrame :=
  if decide (key ∈ df.cols) && aggs.all (aggRefOk df.cols) then
    .ok (applyGroupAgg key aggs df)
  else
    .error (.unresolvedColumns
      ((if key ∈ df.cols then [] else [key]) ++
        (aggs.filter (fun a => !aggRefOk df.cols a)).map (fun a => a.inCol)))

/-- Total order used for sorting row lists (NULLs first; values of distinct
runtime types never meet in a sorted column of this dataset). -/
def valLE : Option Val → Option Val → Bool
  | none, _ => true
  | some _, none => false
  | some (Val.num x), some (Val.num y) => decide (x ≤ y)
  | some (Val.str s), some (Val.str t) => decide (s ≤ t)
  | some (Val.bool a), some (Val.bool b) => !a || b
  | _, _ => true

/-- Insertion step of the sort. -/
def insertRowBy (le : Row → Row → Bool) (r : Row) : List Row → List Row
  | [] => [r]
  | x :: xs => if le r x then r :: x :: xs else x :: insertRowBy le r xs

/-- Insertion sort of the rows (the claims do not depend on the sorting
algorithm, only on the row multiset). -/
def sortRowsBy (le : Row → Row → Bool) : List Row → List Row
  | [] => []
  | x :: xs => insertRowBy le x (sortRowsBy le xs)

/-- `df.orderBy(c)` (ascending). -/
def DataFrame.orderByAsc (df : DataFrame) (c : String) :
    Except PipelineError DataFrame :=
  if c ∈ df.cols then
    .ok ⟨df.cols, sortRowsBy (fun a b => valLE (a c) (b c)) df.rows⟩
  else .error (.unresolvedColumns [c])

/-- `df.orderBy(col(c).desc())`. -/
def DataFrame.orderByDesc (df : DataFrame) (c : String) :
    Except PipelineError DataFrame :=
  if c ∈ df.cols then
    .ok ⟨df.cols, sortRowsBy (fun a b => valLE (b c) (a c)) df.rows⟩
  else .error (.unresolvedColumns [c])

/-- The `agg(...)` list of the three trip-volume tables. -/
def tmVolumeAggs : List AggSpec :=
  [⟨"trip_count", .cnt, "*"⟩, ⟨"avg_distance", .avg, "trip_distance"⟩,
   ⟨"avg_fare", .avg, "fare_amount"⟩, ⟨"avg_total", .avg, "total_amount"⟩]

/-- The `agg(...)` list of the two trip-duration tables. -/
def tmDurationAggs : List AggSpec :=
  [⟨"trip_count", .cnt, "*"⟩, ⟨"avg_duration_minutes", .avg, "trip_duration_minutes"⟩,
   ⟨"avg_distance", .avg, "trip_distance"⟩]

/-- The `agg(...)` list of the speed table. -/
def tmSpeedAggs : List AggSpec :=
  [⟨"trip_count", .cnt, "*"⟩, ⟨"avg_speed_mph", .avg, "trip_speed_mph"⟩,
   ⟨"avg_distance", .avg, "trip_distance"⟩]

/-- The `agg(...)` list of the monthly-trends table. -/
def tmMonthlyAggs : List AggSpec :=
  [⟨"trip_count", .cnt, "*"⟩, ⟨"avg_distance", .avg, "trip_distance"⟩,
   ⟨"avg_fare", .avg, "fare_amount"⟩, ⟨"avg_total", .avg, "total_amount"⟩,
   ⟨"total_revenue", .sum, "total_amount"⟩]

/-- The `agg(...)` list of the length-category table (the duration average
falls back to a `count("*")` alias when the duration column is absent, as in
the source's inline conditional). -/
def tmCategoryAggs (df : DataFrame) : List AggSpec :=
  [⟨"trip_count", .cnt, "*"⟩, ⟨"avg_distance", .avg, "trip_distance"⟩,
   ⟨"avg_fare", .avg, "fare_amount"⟩, ⟨"avg_total", .avg, "total_amount"⟩,
   (if "trip_duration_minutes" ∈ df.cols then
      ⟨"avg_duration_minutes", .avg, "trip_duration_minutes"⟩
    else ⟨"avg_duration_minutes", .cnt, "*"⟩)]

/-- The derive-temporal-features preamble of `trip_metrics_aggregation.main`
(runs only when `pickup_hour` is absent but derivable). -/
def tmDeriveStep (df0 : DataFrame) : Except PipelineError DataFrame :=
  if "pickup_hour" ∉ df0.cols ∧ "tpep_pickup_datetime" ∈ df0.cols then do
    let d ← df0.withColumn "pickup_ts" (.toTs (.col "tpep_pickup_datetime"))
    let d ← d.withColumn "pickup_hour" (.hourE (.col "pickup_ts"))
    let d ← d.withColumn "pickup_day_of_week" (.dowE (.col "pickup_ts"))
    d.withColumn "pickup_date" (.dateFmt (.col "pickup_ts") "yyyy-MM-dd")
  else pure df0

/-- Aggregate 1: trip volume by hour (unguarded). -/
def tmHourTable (df : DataFrame) : Except PipelineError DataFrame := do
  let t ← groupAgg "pickup_hour" tmVolumeAggs df
  t.orderByAsc "pickup_hour"

/-- Aggregate 2: trip volume by day of week (unguarded). -/
def tmDayTable (df : DataFrame) : Except PipelineError DataFrame := do
  let t ← groupAgg "pickup_day_of_week" tmVolumeAggs df
  t.orderByAsc "pickup_day_of_week"

/-- Aggregate 3: trip volume by pickup zone (guarded on `pulocationid`). -/
def tmZoneStep (df : DataFrame) (out : List (String × DataFrame)) :
    Except PipelineError (List (String × DataFrame)) :=
  if "pulocationid" ∈ df.cols then do
    let t ← groupAgg "pulocationid" tmVolumeAggs df
    let t ← t.orderByDesc "trip_count"
    pure (out ++ [("trip_volume_by_zone", t)])
  else pure out

/-- Aggregate 4: duration analyses (guarded on `trip_duration_minutes`, with
the by-zone table additionally guarded on `pulocationid`). -/
def tmDurationStep (df : DataFrame) (out : List (String × DataFrame)) :
    Except PipelineError (List (String × DataFrame)) :=
  if "trip_duration_minutes" ∈ df.cols then do
    let t ← groupAgg "pickup_hour" tmDurationAggs df
    let t ← t.orderByAsc "pickup_hour"
    let out := out ++ [("trip_duration_by_hour", t)]
    if "pulocationid" ∈ df.cols then do
      let t ← groupAgg "pulocationid" tmDurationAggs df
      let t ← t.orderByDesc "trip_count"
      pure (out ++ [("trip_duration_by_zone", t)])
    else pure out
  else pure out

/-- Aggregate 5: speed analysis (guarded on `trip_speed_mph`; NULL speeds
are filtered out first). -/
def tmSpeedStep (df : DataFrame) (out : List (String × DataFrame)) :
    Except PipelineError (List (String × DataFrame)) :=
  if "trip_speed_mph" ∈ df.cols then do
    let d ← df.filterE (.isNotNull (.col "trip_speed_mph"))
    let t ← groupAgg "pickup_hour" tmSpeedAggs d
    let t ← t.orderByAsc "pickup_hour"
    pure (out ++ [("trip_speed_by_hour", t)])
  else pure out

/-- Aggregate 6: monthly trends (guarded on `pickup_month`). -/
def tmMonthlyStep (df : DataFrame) (out : List (String × DataFrame)) :
    Except PipelineError (List (String × DataFrame)) :=
  if "pickup_month" ∈ df.cols then do
    let t ← groupAgg "pickup_month" tmMonthlyAggs df
    let t ← t.orderByAsc "pickup_month"
    pure (out ++ [("monthly_trends", t)])
  else pure out

/-- Aggregate 7: trips by length category (guarded on
`trip_length_category`). -/
def tmCategoryStep (df : DataFrame) (out : List (String × DataFrame)) :
    Except PipelineError (List (String × DataFrame)) :=
  if "trip_length_category" ∈ df.cols then do
    let t ← groupAgg "trip_length_category" (tmCategoryAggs df) df
    let t ← t.orderByAsc "trip_length_category"
    pure (out ++ [("trips_by_length_category", t)])
  else pure out

/-- The aggregation core of `trip_metrics_aggregation.main`: the list of
summary tables written to S3, in write order, keyed by their output folder
name.  Each table's computation is guarded exactly as in the source; the
hour and day-of-week tables are unguarded. -/
def trip_metrics_main (df0 : DataFrame) :
    Except PipelineError (List (String × DataFrame)) := do
  let df ← tmDeriveStep df0
  let t1 ← tmHourTable df
  let t2 ← tmDayTable df
  let out := [("trip_volume_by_hour", t1), ("trip_volume_by_day", t2)]
  let out ← tmZoneStep df out
  let out ← tmDurationStep df out
  let out ← tmSpeedStep df out
  let out ← tmMonthlyStep df out
  tmCategoryStep df out

/-! Concrete inputs used by the counterexamples and witnesses. -/

/-- A row whose every field is the number 1, for the C5 counterexample. -/
def wC5row : Row := fun _ => some (Val.num 1)

/-- A two-row dataframe containing none of the six dedup key columns; its two
rows vacuously agree on the (empty) present key subset. -/
def wC5df : DataFrame := ⟨["foo"], [wC5row, wC5row]⟩

/-- A cleaned input for the C6 counterexample: it lacks both `pickup_hour`
and `tpep_pickup_datetime`, the prerequisite of the (unguarded) hourly
aggregate, while `pulocationid` and the amount columns are present. -/
def wC6df : DataFrame :=
  ⟨["trip_distance", "fare_amount", "total_amount", "pulocationid"], []⟩

/-- Witness row for C1: a stationary trip (duration 0, distance 7). -/
def wC1row : Row := fun n =>
  if n = "trip_duration_minutes" then some (Val.num 0)
  else if n = "trip_distance" then some (Val.num 7) else none

/-- Witness dataframe for C1. -/
def wC1df : DataFrame := ⟨["trip_duration_minutes", "trip_distance"], [wC1row]⟩

/-- Witness row for C2: pickup at unix second 0, dropoff 600 (ten minutes). -/
def wC2row : Row := fun n =>
  if n = "tpep_pickup_datetime" then some (Val.num 0)
  else if n = "tpep_dropoff_datetime" then some (Val.num 600) else none

/-- Witness dataframe for C2. -/
def wC2df : DataFrame := ⟨["tpep_pickup_datetime", "tpep_dropoff_datetime"], [wC2row]⟩

/-- Witness row for C3: distance exactly 2 (the short/medium boundary). -/
def wC3row : Row := fun n => if n = "trip_distance" then some (Val.num 2) else none

/-- Witness dataframe for C3. -/
def wC3df : DataFrame := ⟨["trip_distance"], [wC3row]⟩

/-- The enriched dataframe the C3 witness row flows into. -/
def wC3out : DataFrame := (add_derived_features wC3df).toOption.getD ⟨[], []⟩

/-- The enriched C3 witness row. -/
def wC3orow : Row := updRow "trip_length_category" (categoryExpr.eval wC3row) wC3row

/-- Witness row for C4: tip 5 with total 0 (the guarded division case). -/
def wC4row : Row := fun n =>
  if n = "tip_amount" then some (Val.num 5)
  else if n = "total_amount" then some (Val.num 0) else none

/-- Witness dataframe for C4. -/
def wC4df : DataFrame := ⟨["tip_amount", "total_amount"], [wC4row]⟩

/-- The enriched dataframe the C4 witness row flows into. -/
def wC4out : DataFrame := (add_derived_features wC4df).toOption.getD ⟨[], []⟩

/-- The enriched C4 witness row. -/
def wC4orow : Row := updRow "tip_percentage" (tipExpr.eval wC4row) wC4row

/-- Witness rows for the amended C5 theorem (two duplicates and a distinct
row on the one present key column). -/
def wC5vrow1 : Row := fun n => if n = "trip_distance" then some (Val.num 1) else none

/-- Second distinct witness row for the amended C5 theorem. -/
def wC5vrow2 : Row := fun n => if n = "trip_distance" then some (Val.num 2) else none

/-- Witness dataframe for the amended C5 theorem. -/
def wC5vdf : DataFrame := ⟨["trip_distance"], [wC5vrow1, wC5vrow1, wC5vrow2]⟩

/-- Witness dataframe for the amended C6 theorem: `pickup_hour`,
`pickup_day_of_week` and the amount columns are present but `pulocationid`,
the duration/speed/month/category columns are not. -/
def wC6vdf : DataFrame :=
  ⟨["pickup_hour", "pickup_day_of_week", "trip_distance", "fare_amount", "total_amount"], []⟩

/-- Witness dataframe for C7: only column `a` is present. -/
def wC7df : DataFrame := ⟨["a"], []⟩

/-- Witness row for C8: a well-formed trip row. -/
def wC8row : Row := fun n =>
  if n = "tpep_pickup_datetime" then some (Val.num 0)
  else if n = "tpep_dropoff_datetime" then some (Val.num 600)
  else some (Val.num 1)

/-- Witness dataframe for C8, carrying every column the validator stages and
the quality flagger touch. -/
def wC8df : DataFrame :=
  ⟨["tpep_pickup_datetime", "tpep_dropoff_datetime", "passenger_count", "trip_distance",
    "fare_amount", "total_amount", "trip_duration_minutes", "trip_speed_mph",
    "pulocationid", "dolocationid", "payment_type"], [wC8row]⟩

/-- Stage outputs for the C8 witness. -/
def wC8null : DataFrame := (remove_null_values wC8df ["trip_distance"]).toOption.getD ⟨[], []⟩

/-- C8 witness output of the temporal validator. -/
def wC8tt : DataFrame := (validate_trip_times wC8df).toOption.getD ⟨[], []⟩

/-- C8 witness output of the duration filter. -/
def wC8dur : DataFrame := (validate_trip_duration wC8df 1 1440).toOption.getD ⟨[], []⟩

/-- C8 witness output of the speed filter. -/
def wC8spd : DataFrame := (validate_trip_speed wC8df 1 100).toOption.getD ⟨[], []⟩

/-- C8 witness output of the fare/distance filter. -/
def wC8fit : DataFrame :=
  (filter_invalid_trips wC8df "fare_amount" "trip_distance").toOption.getD ⟨[], []⟩

/-- C8 witness output of the passenger-count filter. -/
def wC8pass : DataFrame := (validate_passenger_count wC8df 6).toOption.getD ⟨[], []⟩

/-- C8 witness output of the quality flagger. -/
def wC8q : DataFrame := (add_quality_flags wC8df).toOption.getD ⟨[], []⟩

/-- Witness dataframe for C9: lacks all three quality-flag input columns. -/
def wC9df : DataFrame := ⟨["tip_amount", "total_amount"], []⟩

/-- Witness row for C10: the spec's concrete scenario (10-minute trip,
3 miles, fare 10, total 12, tip 2, one passenger), at small unix seconds. -/
def wC10row : Row := fun n =>
  if n = "tpep_pickup_datetime" then some (Val.num 0)
  else if n = "tpep_dropoff_datetime" then some (Val.num 600)
  else if n = "passenger_count" then some (Val.num 1)
  else if n = "trip_distance" then some (Val.num 3)
  else if n = "fare_amount" then some (Val.num 10)
  else if n = "total_amount" then some (Val.num 12)
  else if n = "tip_amount" then some (Val.num 2)
  else if n = "pulocationid" then some (Val.num 1)
  else if n = "dolocationid" then some (Val.num 2)
  else if n = "payment_type" then some (Val.num 1)
  else none

/-- Witness dataframe for C10. -/
def wC10df : DataFrame :=
  ⟨["tpep_pickup_datetime", "tpep_dropoff_datetime", "passenger_count", "trip_distance",
    "fare_amount", "total_amount", "tip_amount", "pulocationid", "dolocationid",
    "payment_type"], [wC10row]⟩

/-- The cleaned output of the C10 witness run. -/
def wC10out : DataFrame := (data_validation_cleaning_main wC10df).toOption.getD ⟨[], []⟩

/-! Basic lemmas about the dataframe operations. -/

theorem updRow_self (c : String) (v : Option Val) (r : Row) : updRow c v r c = v := by
  simp [updRow]

theorem updRow_ne {n c : String} (h : n ≠ c) (v : Option Val) (r : Row) :
    updRow c v r n = r n := by
  simp [updRow, h]

theorem mem_insertCol_of {n c : String} {cols : List String} (h : n ∈ cols) :
    n ∈ insertCol c cols := by
  unfold insertCol
  split <;> simp [h]

theorem self_mem_insertCol (c : String) (cols : List String) : c ∈ insertCol c cols := by
  unfold insertCol
  split <;> simp_all

theorem mem_applyFilter {e : Expr} {df : DataFrame} {r : Row} :
    r ∈ (applyFilter e df).rows ↔ r ∈ df.rows ∧ e.eval r = some (Val.bool true) := by
  simp [applyFilter, List.mem_filter]

theorem mem_applyWith {c : String} {e : Expr} {df : DataFrame} {r' : Row} :
    r' ∈ (applyWith c e df).rows ↔ ∃ r ∈ df.rows, updRow c (e.eval r) r = r' := by
  simp [applyWith, List.mem_map]

theorem refsOk_iff {e : Expr} {df : DataFrame} :
    refsOk e df = true ↔ ∀ n ∈ e.refs, n ∈ df.cols := by
  simp [refsOk, List.all_eq_true]

theorem withColumn_ok_of {df : DataFrame} {c : String} {e : Expr}
    (h : ∀ n ∈ e.refs, n ∈ df.cols) :
    df.withColumn c e = .ok (applyWith c e df) := by
  simp [DataFrame.withColumn, refsOk_iff.mpr h]

theorem filterE_ok_of {df : DataFrame} {e : Expr}
    (h : ∀ n ∈ e.refs, n ∈ df.cols) :
    df.filterE e = .ok (applyFilter e df) := by
  simp [DataFrame.filterE, refsOk_iff.mpr h]

theorem withColumn_ok_iff {df df' : DataFrame} {c : String} {e : Expr} :
    df.withColumn c e = .ok df' ↔ refsOk e df = true ∧ applyWith c e df = df' := by
  unfold DataFrame.withColumn
  split <;> simp_all

theorem filterE_ok_iff {df df' : DataFrame} {e : Expr} :
    df.filterE e = .ok df' ↔ refsOk e df = true ∧ applyFilter e df = df' := by
  unfold DataFrame.filterE
  split <;> simp_all

theorem and3_some_some (a b : Bool) : and3 (some a) (some b) = some (a && b) := by
  cases a <;> cases b <;> rfl

theorem or3_some_some (a b : Bool) : or3 (some a) (some b) = some (a || b) := by
  cases a <;> cases b <;> rfl

theorem asBool3_map_bool (x : Option Bool) : asBool3 (x.map Val.bool) = x := by
  cases x <;> rfl

/-! Claim C1: SpeedValidator — speed derivation and null-passthrough filter
(`calculate_trip_speed`, `validate_trip_speed`). -/

/-- C1: for a row whose `trip_duration_minutes` is the number `m` and whose
`trip_distance` is the number `x`, `calculate_trip_speed` derives
`trip_speed_mph = x / (m / 60)` when `m > 0` and NULL otherwise, and
`validate_trip_speed` keeps the derived row iff the speed is NULL (`m ≤ 0`)
or lies within `[min_mph, max_mph]`; in particular `m = 0` survives with a
NULL speed regardless of distance. -/
theorem claim1_speed_validator (df : DataFrame) (min_mph max_mph : ℚ) (r : Row) (m x : ℚ)
    (hdurc : "trip_duration_minutes" ∈ df.cols) (hdistc : "trip_distance" ∈ df.cols)
    (hr : r ∈ df.rows)
    (hm : r "trip_duration_minutes" = some (Val.num m))
    (hx : r "trip_distance" = some (Val.num x)) :
    ∃ df₁ df₂,
      calculate_trip_speed df = .ok df₁ ∧
      validate_trip_speed df₁ min_mph max_mph = .ok df₂ ∧
      updRow "trip_speed_mph" (if 0 < m then some (Val.num (x / (m / 60))) else none) r ∈ df₁.rows ∧
      (updRow "trip_speed_mph" (if 0 < m then some (Val.num (x / (m / 60))) else none) r ∈ df₂.rows ↔
        (m ≤ 0 ∨ (min_mph ≤ x / (m / 60) ∧ x / (m / 60) ≤ max_mph))) := by
  have hrefs1 : calculate_trip_speed df = .ok (applyWith "trip_speed_mph" speedExpr df) := by
    apply withColumn_ok_of
    intro n hn
    simp [speedExpr, Expr.refs] at hn
    rcases hn with h | h | h <;> subst h <;> assumption
  have heval' : speedExpr.eval r = (if 0 < m then some (Val.num (x / (m / 60))) else none) := by
    by_cases h0 : 0 < m
    · have h60 : (m / 60 : ℚ) ≠ 0 := by
        exact div_ne_zero (ne_of_gt h0) (by norm_num)
      simp [speedExpr, Expr.eval, cmp3, asNum, hm, hx, div3, h0, h60]
    · simp [speedExpr, Expr.eval, cmp3, asNum, hm, hx, h0]
  have hmem1 : updRow "trip_speed_mph" (if 0 < m then some (Val.num (x / (m / 60))) else none) r ∈
      (applyWith "trip_speed_mph" speedExpr df).rows := by
    exact mem_applyWith.mpr ⟨r, hr, by rw [heval']⟩
  refine ⟨_, _, hrefs1, filterE_ok_of ?_, hmem1, ?_⟩
  · intro n hn
    simp [Expr.refs] at hn
    subst hn
    exact self_mem_insertCol _ _
  · rw [mem_applyFilter, and_iff_right hmem1]
    by_cases h0 : 0 < m
    · simp [Expr.eval, cmp3, asNum, asBool3, updRow_self, and3_some_some, or3_some_some,
        asBool3_map_bool, h0, h0.not_le]
    · simp [Expr.eval, cmp3, asNum, asBool3, updRow_self, or3, and3, h0, not_lt.mp h0]

/-! Monadic plumbing and row-preservation lemmas. -/

theorem exceptBind_ok {α β ε : Type} {m : Except ε α} {k : α → Except ε β} {b : β} :
    (m >>= k) = .ok b ↔ ∃ a, m = .ok a ∧ k a = .ok b := by
  cases m <;> simp [Bind.bind, Except.bind]

theorem exceptPure_ok {α ε : Type} {a b : α} :
    (pure a : Except ε α) = .ok b ↔ a = b := by
  simp [pure, Except.pure]

theorem withColumn_pre {df df' : DataFrame} {c : String} {e : Expr}
    (h : df.withColumn c e = .ok df') {r' : Row} (hr' : r' ∈ df'.rows)
    (ns : List String) (hn : c ∉ ns) :
    ∃ r ∈ df.rows, ∀ n ∈ ns, r' n = r n := by
  obtain ⟨-, rfl⟩ := withColumn_ok_iff.mp h
  obtain ⟨r, hr, rfl⟩ := mem_applyWith.mp hr'
  exact ⟨r, hr, fun n hns => updRow_ne (fun hc => hn (by rw [← hc]; exact hns)) _ _⟩

theorem guardStep_pre {df df' : DataFrame} {P : Prop} [Decidable P] {c : String} {e : Expr}
    (h : (if P then df.withColumn c e else pure df) = .ok df')
    {r' : Row} (hr' : r' ∈ df'.rows) (ns : List String) (hn : c ∉ ns) :
    ∃ r ∈ df.rows, ∀ n ∈ ns, r' n = r n := by
  split at h
  · exact withColumn_pre h hr' ns hn
  · obtain rfl := exceptPure_ok.mp h
    exact ⟨r', hr', fun n _ => rfl⟩

theorem withColumn_cols_mono {df df' : DataFrame} {c : String} {e : Expr}
    (h : df.withColumn c e = .ok df') {n : String} (hn : n ∈ df.cols) : n ∈ df'.cols := by
  obtain ⟨-, rfl⟩ := withColumn_ok_iff.mp h
  exact mem_insertCol_of hn

theorem guardStep_cols_mono {df df' : DataFrame} {P : Prop} [Decidable P] {c : String} {e : Expr}
    (h : (if P then df.withColumn c e else pure df) = .ok df')
    {n : String} (hn : n ∈ df.cols) : n ∈ df'.cols := by
  split at h
  · exact withColumn_cols_mono h hn
  · obtain rfl := exceptPure_ok.mp h
    exact hn

/-! Claim C3: FeatureEnricher — trip length category partition
(`add_derived_features`). -/

/-- C3: every output row of `add_derived_features` whose `trip_distance` is a
nonnegative number `x` carries `trip_length_category` equal to exactly one of
`short`/`medium`/`long`, with `short ↔ x < 2`, `medium ↔ 2 ≤ x < 5`,
`long ↔ 5 ≤ x` (so distance 2 is medium and distance 5 is long). -/
theorem claim3_length_category (df df' : DataFrame)
    (h : add_derived_features df = .ok df')
    (hdistc : "trip_distance" ∈ df.cols)
    (r' : Row) (hr' : r' ∈ df'.rows) (x : ℚ)
    (hx : r' "trip_distance" = some (Val.num x)) (hx0 : 0 ≤ x) :
    ( r' "trip_length_category" = some (Val.str "short") ↔ x < 2) ∧
    ( r' "trip_length_category" = some (Val.str "medium") ↔ 2 ≤ x ∧ x < 5) ∧
    ( r' "trip_length_category" = some (Val.str "long") ↔ 5 ≤ x) := by
  unfold add_derived_features at h
  rw [exceptBind_ok] at h
  obtain ⟨d1, h1, h⟩ := h
  rw [exceptBind_ok] at h
  obtain ⟨d2, h2, h⟩ := h
  rw [exceptBind_ok] at h
  obtain ⟨d3, h3, h⟩ := h
  rw [exceptBind_ok] at h
  obtain ⟨d4, h4, h5⟩ := h
  unfold derivedTipStep at h1
  unfold derivedCategoryStep at h2
  unfold derivedAirportPickupStep at h3
  unfold derivedAirportDropoffStep at h4
  unfold derivedAirportTripStep at h5
  -- the category guard is true because `trip_distance` survives step 1
  have hdist1 : "trip_distance" ∈ d1.cols := guardStep_cols_mono h1 hdistc
  rw [if_pos hdist1] at h2
  -- walk back from `r'` to the row produced by the category step
  obtain ⟨r4, hr4, hpre4⟩ := guardStep_pre h5 hr'
    ["trip_length_category", "trip_distance"] (by decide)
  obtain ⟨r3, hr3, hpre3⟩ := guardStep_pre h4 hr4
    ["trip_length_category", "trip_distance"] (by decide)
  obtain ⟨r2, hr2, hpre2⟩ := guardStep_pre h3 hr3
    ["trip_length_category", "trip_distance"] (by decide)
  have hcat : r' "trip_length_category" = r2 "trip_length_category" := by
    rw [hpre4 _ (by decide), hpre3 _ (by decide), hpre2 _ (by decide)]
  have hdist : r' "trip_distance" = r2 "trip_distance" := by
    rw [hpre4 _ (by decide), hpre3 _ (by decide), hpre2 _ (by decide)]
  obtain ⟨-, rfl⟩ := withColumn_ok_iff.mp h2
  obtain ⟨r1, hr1, rfl⟩ := mem_applyWith.mp hr2
  rw [updRow_ne (show ("trip_distance" : String) ≠ "trip_length_category" from by decide)] at hdist
  rw [updRow_self] at hcat
  have hd1 : r1 "trip_distance" = some (Val.num x) := by
    rw [← hdist]
    exact hx
  have hev : categoryExpr.eval r1 =
      some (Val.str (if x < 2 then "short" else if x < 5 then "medium" else "long")) := by
    by_cases h2' : x < 2
    · simp [categoryExpr, Expr.eval, cmp3, asNum, hd1, h2']
    · by_cases h5' : x < 5
      · simp [categoryExpr, Expr.eval, cmp3, asNum, hd1, h2', h5']
      · simp [categoryExpr, Expr.eval, cmp3, asNum, hd1, h2', h5']
  rw [hcat, hev]
  by_cases h2' : x < 2
  · have h5' : x < 5 := lt_trans h2' (by norm_num)
    simp [h2', h5', (by linarith : ¬(2:ℚ) ≤ x), (by linarith : ¬(5:ℚ) ≤ x)]
  · by_cases h5' : x < 5
    · simp [h2', h5', not_lt.mp h2', (by linarith : ¬(5:ℚ) ≤ x)]
    · simp [h2', h5', not_lt.mp h5', (by linarith : ¬x < 2)]

/-! Claim C4: FeatureEnricher — guarded tip percentage
(`add_derived_features`). -/

/-- C4: every output row of `add_derived_features` whose `tip_amount` is the
number `t` and whose `total_amount` is the number `tot` carries
`tip_percentage = 100 * t / tot` when `tot > 0` and exactly `0.0` otherwise —
never an error, NULL, or infinity (in particular `tot = 0, t = 5` gives `0.0`). -/
theorem claim4_tip_percentage (df df' : DataFrame)
    (h : add_derived_features df = .ok df')
    (htip : "tip_amount" ∈ df.cols) (htot : "total_amount" ∈ df.cols)
    (r' : Row) (hr' : r' ∈ df'.rows) (t tot : ℚ)
    (ht : r' "tip_amount" = some (Val.num t))
    (htt : r' "total_amount" = some (Val.num tot)) :
    r' "tip_percentage" = some (Val.num (if 0 < tot then t / tot * 100 else 0)) := by
  unfold add_derived_features at h
  rw [exceptBind_ok] at h
  obtain ⟨d1, h1, h⟩ := h
  rw [exceptBind_ok] at h
  obtain ⟨d2, h2, h⟩ := h
  rw [exceptBind_ok] at h
  obtain ⟨d3, h3, h⟩ := h
  rw [exceptBind_ok] at h
  obtain ⟨d4, h4, h5⟩ := h
  unfold derivedTipStep at h1
  unfold derivedCategoryStep at h2
  unfold derivedAirportPickupStep at h3
  unfold derivedAirportDropoffStep at h4
  unfold derivedAirportTripStep at h5
  rw [if_pos ⟨htip, htot⟩] at h1
  obtain ⟨r4, hr4, hp4⟩ := guardStep_pre h5 hr'
    ["tip_percentage", "tip_amount", "total_amount"] (by decide)
  obtain ⟨r3, hr3, hp3⟩ := guardStep_pre h4 hr4
    ["tip_percentage", "tip_amount", "total_amount"] (by decide)
  obtain ⟨r2, hr2, hp2⟩ := guardStep_pre h3 hr3
    ["tip_percentage", "tip_amount", "total_amount"] (by decide)
  obtain ⟨r1, hr1, hp1⟩ := guardStep_pre h2 hr2
    ["tip_percentage", "tip_amount", "total_amount"] (by decide)
  have hptip : r' "tip_percentage" = r1 "tip_percentage" := by
    rw [hp4 _ (by decide), hp3 _ (by decide), hp2 _ (by decide), hp1 _ (by decide)]
  have hta : r' "tip_amount" = r1 "tip_amount" := by
    rw [hp4 _ (by decide), hp3 _ (by decide), hp2 _ (by decide), hp1 _ (by decide)]
  have htota : r' "total_amount" = r1 "total_amount" := by
    rw [hp4 _ (by decide), hp3 _ (by decide), hp2 _ (by decide), hp1 _ (by decide)]
  obtain ⟨-, rfl⟩ := withColumn_ok_iff.mp h1
  obtain ⟨r0, hr0, rfl⟩ := mem_applyWith.mp hr1
  rw [updRow_self] at hptip
  rw [updRow_ne (show ("tip_amount" : String) ≠ "tip_percentage" from by decide)] at hta
  rw [updRow_ne (show ("total_amount" : String) ≠ "tip_percentage" from by decide)] at htota
  have h0t : r0 "tip_amount" = some (Val.num t) := by
    rw [← hta]
    exact ht
  have h0tot : r0 "total_amount" = some (Val.num tot) := by
    rw [← htota]
    exact htt
  rw [hptip]
  by_cases hpos : 0 < tot
  · have htotne : tot ≠ 0 := ne_of_gt hpos
    simp [tipExpr, Expr.eval, cmp3, asNum, arith3, div3, h0t, h0tot, hpos, htotne]
  · simp [tipExpr, Expr.eval, cmp3, asNum, h0t, h0tot, hpos]

theorem exceptOk_bind {α β ε : Type} (a : α) (k : α → Except ε β) :
    ((Except.ok a : Except ε α) >>= k) = k a := rfl

/-! Claim C2: TemporalValidator — ordering/recency filter, duration
derivation and duration range filter (`validate_trip_times`,
`calculate_trip_duration`, `validate_trip_duration`). -/

/-- C2: for a row whose raw pickup and dropoff datetimes parse to the
timestamps `p` and `d`, `validate_trip_times` keeps the (timestamp-extended)
row iff `d > p`, `p ≤ nowBound` and `d ≤ nowBound`; `calculate_trip_duration`
then derives `trip_duration_minutes = (d - p) / 60` (fractional minutes) and
`validate_trip_duration` keeps the row iff additionally the duration lies in
`[min_minutes, max_minutes]`. -/
theorem claim2_temporal_validator (df : DataFrame) (r : Row) (p d min_minutes max_minutes : ℚ)
    (hpc : "tpep_pickup_datetime" ∈ df.cols) (hdc : "tpep_dropoff_datetime" ∈ df.cols)
    (hr : r ∈ df.rows)
    (hp : r "tpep_pickup_datetime" = some (Val.num p))
    (hd : r "tpep_dropoff_datetime" = some (Val.num d)) :
    ∃ df₁ df₂ df₃,
      validate_trip_times df = .ok df₁ ∧
      (updRow "dropoff_ts" (some (Val.num d)) (updRow "pickup_ts" (some (Val.num p)) r) ∈ df₁.rows ↔
        (p < d ∧ p ≤ nowBound ∧ d ≤ nowBound)) ∧
      calculate_trip_duration df₁ = .ok df₂ ∧
      validate_trip_duration df₂ min_minutes max_minutes = .ok df₃ ∧
      (updRow "trip_duration_minutes" (some (Val.num ((d - p) / 60)))
          (updRow "dropoff_ts" (some (Val.num d)) (updRow "pickup_ts" (some (Val.num p)) r)) ∈ df₃.rows ↔
        ((p < d ∧ p ≤ nowBound ∧ d ≤ nowBound) ∧
          min_minutes ≤ (d - p) / 60 ∧ (d - p) / 60 ≤ max_minutes)) := by
  set e1 : Expr := .toTs (.col "tpep_pickup_datetime") with he1
  set e2 : Expr := .toTs (.col "tpep_dropoff_datetime") with he2
  set e3 : Expr := .gt (.col "dropoff_ts") (.col "pickup_ts") with he3
  set e4 : Expr := .le (.toTs (.col "pickup_ts")) (.lit (Val.num nowBound)) with he4
  set e5 : Expr := .le (.toTs (.col "dropoff_ts")) (.lit (Val.num nowBound)) with he5
  set dfa : DataFrame := applyWith "pickup_ts" e1 df with hdfa
  set dfb : DataFrame := applyWith "dropoff_ts" e2 dfa with hdfb
  set dfc : DataFrame := applyFilter e3 dfb with hdfc
  set dfd : DataFrame := applyFilter e4 dfc with hdfd
  set df1 : DataFrame := applyFilter e5 dfd with hdf1
  have hok1 : validate_trip_times df = .ok df1 := by
    unfold validate_trip_times
    rw [withColumn_ok_of (by intro n hn; simp [he1, Expr.refs] at hn; subst hn; exact hpc),
      exceptOk_bind,
      withColumn_ok_of (by
        intro n hn
        simp [he2, Expr.refs] at hn
        subst hn
        exact mem_insertCol_of hdc),
      exceptOk_bind,
      filterE_ok_of (by
        intro n hn
        simp [he3, Expr.refs] at hn
        rcases hn with hn | hn <;> subst hn
        · exact self_mem_insertCol _ _
        · exact mem_insertCol_of (self_mem_insertCol _ _)),
      exceptOk_bind,
      filterE_ok_of (by
        intro n hn
        simp [he4, Expr.refs] at hn
        subst hn
        exact mem_insertCol_of (self_mem_insertCol _ _)),
      exceptOk_bind,
      filterE_ok_of (by
        intro n hn
        simp [he5, Expr.refs] at hn
        subst hn
        exact self_mem_insertCol _ _)]
  set r1 : Row := updRow "pickup_ts" (some (Val.num p)) r with hr1
  set r2 : Row := updRow "dropoff_ts" (some (Val.num d)) r1 with hr2
  have r2pick : r2 "pickup_ts" = some (Val.num p) := by
    rw [hr2, updRow_ne (by decide), hr1, updRow_self]
  have r2drop : r2 "dropoff_ts" = some (Val.num d) := by
    rw [hr2, updRow_self]
  have hr2b : r2 ∈ dfb.rows := by
    rw [hdfb]
    refine mem_applyWith.mpr ⟨r1, ?_, ?_⟩
    · rw [hdfa]
      refine mem_applyWith.mpr ⟨r, hr, ?_⟩
      rw [hr1, he1]
      simp [Expr.eval, asNum, hp]
    · rw [hr2, he2, hr1]
      have : updRow "pickup_ts" (some (Val.num p)) r "tpep_dropoff_datetime" = some (Val.num d) := by
        rw [updRow_ne (by decide), hd]
      simp [Expr.eval, asNum, this]
  have hpred3 : e3.eval r2 = some (Val.bool (decide (p < d))) := by
    rw [he3]
    simp [Expr.eval, cmp3, asNum, r2pick, r2drop]
  have hpred4 : e4.eval r2 = some (Val.bool (decide (p ≤ nowBound))) := by
    rw [he4]
    simp [Expr.eval, cmp3, asNum, r2pick]
  have hpred5 : e5.eval r2 = some (Val.bool (decide (d ≤ nowBound))) := by
    rw [he5]
    simp [Expr.eval, cmp3, asNum, r2drop]
  have hiff1 : r2 ∈ df1.rows ↔ (p < d ∧ p ≤ nowBound ∧ d ≤ nowBound) := by
    rw [hdf1, mem_applyFilter, hdfd, mem_applyFilter, hdfc, mem_applyFilter]
    rw [hpred3, hpred4, hpred5]
    simp [hr2b]
    tauto
  set edur : Expr := .div (.sub (.toTs (.col "dropoff_ts")) (.toTs (.col "pickup_ts")))
    (.lit (Val.num 60)) with hedur
  set df2 : DataFrame := applyWith "trip_duration_minutes" edur df1 with hdf2
  have hok2 : calculate_trip_duration df1 = .ok df2 := by
    unfold calculate_trip_duration
    rw [withColumn_ok_of (by
      intro n hn
      simp [hedur, Expr.refs] at hn
      rcases hn with hn | hn <;> subst hn
      · rw [hdf1, hdfd, hdfc]
        exact self_mem_insertCol _ _
      · rw [hdf1, hdfd, hdfc]
        exact mem_insertCol_of (self_mem_insertCol _ _)), hdf2]
  set efd : Expr := .and (.ge (.col "trip_duration_minutes") (.lit (Val.num min_minutes)))
    (.le (.col "trip_duration_minutes") (.lit (Val.num max_minutes))) with hefd
  set df3 : DataFrame := applyFilter efd df2 with hdf3
  have hok3 : validate_trip_duration df2 min_minutes max_minutes = .ok df3 := by
    unfold validate_trip_duration
    rw [filterE_ok_of (by
      intro n hn
      simp [Expr.refs] at hn
      subst hn
      rw [hdf2]
      exact self_mem_insertCol _ _), hdf3]
  set r3 : Row := updRow "trip_duration_minutes" (some (Val.num ((d - p) / 60))) r2 with hr3
  have r3dur : r3 "trip_duration_minutes" = some (Val.num ((d - p) / 60)) := by
    rw [hr3, updRow_self]
  have hedur_r2 : edur.eval r2 = some (Val.num ((d - p) / 60)) := by
    rw [hedur]
    simp [Expr.eval, asNum, arith3, div3, r2pick, r2drop]
  have hpredfd : efd.eval r3 = some (Val.bool (decide (min_minutes ≤ (d - p) / 60) &&
      decide ((d - p) / 60 ≤ max_minutes))) := by
    rw [hefd]
    simp [Expr.eval, cmp3, asNum, asBool3, r3dur, and3_some_some]
  have hiff3 : r3 ∈ df3.rows ↔
      ((p < d ∧ p ≤ nowBound ∧ d ≤ nowBound) ∧
        min_minutes ≤ (d - p) / 60 ∧ (d - p) / 60 ≤ max_minutes) := by
    rw [hdf3, mem_applyFilter, hpredfd]
    constructor
    · rintro ⟨hmem2, hbool⟩
      rw [hdf2] at hmem2
      obtain ⟨s, hs1, hs2⟩ := mem_applyWith.mp hmem2
      have hspick : s "pickup_ts" = some (Val.num p) := by
        have := congrFun hs2 "pickup_ts"
        rw [updRow_ne (by decide)] at this
        rw [this, hr3, updRow_ne (by decide), r2pick]
      have hsdrop : s "dropoff_ts" = some (Val.num d) := by
        have := congrFun hs2 "dropoff_ts"
        rw [updRow_ne (by decide)] at this
        rw [this, hr3, updRow_ne (by decide), r2drop]
      have hs1' := hs1
      rw [hdf1, mem_applyFilter, hdfd, mem_applyFilter, hdfc, mem_applyFilter] at hs1'
      obtain ⟨⟨⟨-, hb3⟩, hb4⟩, hb5⟩ := hs1'
      rw [he3] at hb3
      rw [he4] at hb4
      rw [he5] at hb5
      simp [Expr.eval, cmp3, asNum, hspick, hsdrop] at hb3 hb4 hb5
      simp only [Option.some.injEq, Val.bool.injEq, Bool.and_eq_true, decide_eq_true_eq] at hbool
      exact ⟨⟨hb3, hb4, hb5⟩, hbool.1, hbool.2⟩
    · rintro ⟨hconds, hmn, hmx⟩
      refine ⟨?_, by simp [hmn, hmx]⟩
      rw [hdf2]
      refine mem_applyWith.mpr ⟨r2, hiff1.mpr hconds, ?_⟩
      rw [hedur_r2, hr3]
  exact ⟨df1, df2, df3, hok1, hiff1, hok2, hok3, hiff3⟩

theorem exceptError_bind {α β ε : Type} (e : ε) (k : α → Except ε β) :
    ((Except.error e : Except ε α) >>= k) = Except.error e := rfl

theorem filterE_length_le {df df' : DataFrame} {e : Expr}
    (h : df.filterE e = .ok df') : df'.rows.length ≤ df.rows.length := by
  obtain ⟨-, rfl⟩ := filterE_ok_iff.mp h
  exact List.length_filter_le _ _

theorem withColumn_length_eq {df df' : DataFrame} {c : String} {e : Expr}
    (h : df.withColumn c e = .ok df') : df'.rows.length = df.rows.length := by
  obtain ⟨-, rfl⟩ := withColumn_ok_iff.mp h
  simp [applyWith]

theorem mem_insertCol_iff {n c : String} {cols : List String} :
    n ∈ insertCol c cols ↔ n ∈ cols ∨ n = c := by
  unfold insertCol
  split
  · rename_i hc
    constructor
    · exact Or.inl
    · rintro (h | rfl)
      · exact h
      · exact hc
  · simp

/-! Claim C7: SchemaGuard (`validate_required_columns` and its pre-flight
position in `data_validation_cleaning.main`). -/

/-- C7: `validate_required_columns` returns its input unchanged iff every
required column is present, errors with exactly the missing-column list iff
some required column is absent, and in the cleaning job this check aborts the
whole run (the job returns that same error, before any transformation). -/
theorem claim7_schema_guard (df : DataFrame) (required : List String) :
    (validate_required_columns df required = .ok df ↔ ∀ c ∈ required, c ∈ df.cols) ∧
    ((∃ c ∈ required, c ∉ df.cols) →
      validate_required_columns df required =
        .error (.missingColumns (required.filter (fun c => decide (c ∉ df.cols))))) ∧
    ((∃ c ∈ criticalColumns, c ∉ df.cols) →
      data_validation_cleaning_main df =
        .error (.missingColumns (criticalColumns.filter (fun c => decide (c ∉ df.cols))))) := by
  have herr : ∀ rs : List String, (∃ c ∈ rs, c ∉ df.cols) →
      validate_required_columns df rs =
        .error (.missingColumns (rs.filter (fun c => decide (c ∉ df.cols)))) := by
    intro rs ⟨c, hc, hnc⟩
    have hne : rs.filter (fun c => decide (c ∉ df.cols)) ≠ [] :=
      List.ne_nil_of_mem (List.mem_filter.mpr ⟨hc, by simp [hnc]⟩)
    unfold validate_required_columns
    rw [if_neg hne]
  refine ⟨?_, herr required, ?_⟩
  · constructor
    · intro h c hc
      by_contra hnc
      rw [herr required ⟨c, hc, hnc⟩] at h
      exact Except.noConfusion h
    · intro hall
      have : required.filter (fun c => decide (c ∉ df.cols)) = [] := by
        rw [List.filter_eq_nil_iff]
        intro c hc
        simp [hall c hc]
      unfold validate_required_columns
      rw [if_pos this]
  · intro hex
    unfold data_validation_cleaning_main
    rw [herr criticalColumns hex, exceptError_bind]

/-! Claim C8: row-count monotonicity of the validator stages and row-count
preservation of QualityFlagger. -/

/-- C8: each validator stage (null-drop, temporal, duration, speed,
fare/distance, passenger-count) outputs at most as many rows as its input,
and `add_quality_flags` outputs exactly as many rows as its input. -/
theorem claim8_row_count_monotone :
    (∀ (df : DataFrame) (cs : List String) (df' : DataFrame),
      remove_null_values df cs = .ok df' → df'.rows.length ≤ df.rows.length) ∧
    (∀ df df' : DataFrame,
      validate_trip_times df = .ok df' → df'.rows.length ≤ df.rows.length) ∧
    (∀ (df : DataFrame) (mn mx : ℚ) (df' : DataFrame),
      validate_trip_duration df mn mx = .ok df' → df'.rows.length ≤ df.rows.length) ∧
    (∀ (df : DataFrame) (mn mx : ℚ) (df' : DataFrame),
      validate_trip_speed df mn mx = .ok df' → df'.rows.length ≤ df.rows.length) ∧
    (∀ (df : DataFrame) (fc dc : String) (df' : DataFrame),
      filter_invalid_trips df fc dc = .ok df' → df'.rows.length ≤ df.rows.length) ∧
    (∀ (df : DataFrame) (mp : ℚ) (df' : DataFrame),
      validate_passenger_count df mp = .ok df' → df'.rows.length ≤ df.rows.length) ∧
    (∀ df df' : DataFrame,
      add_quality_flags df = .ok df' → df'.rows.length = df.rows.length) := by
  refine ⟨?_, ?_, ?_, ?_, ?_, ?_, ?_⟩
  · intro df cs
    induction cs generalizing df with
    | nil =>
      intro df' h
      obtain rfl : df = df' := by simpa [remove_null_values] using h
      exact le_refl _
    | cons c cs ih =>
      intro df' h
      unfold remove_null_values at h
      rw [exceptBind_ok] at h
      obtain ⟨d, hd, hrest⟩ := h
      exact le_trans (ih d df' hrest) (filterE_length_le hd)
  · intro df df' h
    unfold validate_trip_times at h
    rw [exceptBind_ok] at h
    obtain ⟨a, ha, h⟩ := h
    rw [exceptBind_ok] at h
    obtain ⟨b, hb, h⟩ := h
    rw [exceptBind_ok] at h
    obtain ⟨c, hc, h⟩ := h
    rw [exceptBind_ok] at h
    obtain ⟨e, he, h⟩ := h
    calc df'.rows.length ≤ e.rows.length := filterE_length_le h
      _ ≤ c.rows.length := filterE_length_le he
      _ ≤ b.rows.length := filterE_length_le hc
      _ = a.rows.length := withColumn_length_eq hb
      _ = df.rows.length := withColumn_length_eq ha
  · intro df mn mx df' h
    exact filterE_length_le h
  · intro df mn mx df' h
    exact filterE_length_le h
  · intro df fc dc df' h
    unfold filter_invalid_trips at h
    rw [exceptBind_ok] at h
    obtain ⟨a, ha, h⟩ := h
    exact le_trans (filterE_length_le h) (filterE_length_le ha)
  · intro df mp df' h
    exact filterE_length_le h
  · intro df df' h
    unfold add_quality_flags at h
    rw [exceptBind_ok] at h
    obtain ⟨a, ha, h⟩ := h
    rw [withColumn_length_eq h, withColumn_length_eq ha]

/-! Claim C9: `add_quality_flags` references its three optional input columns
without schema-presence guards, unlike `add_derived_features`. -/

theorem derived_steps_total (df : DataFrame) :
    ∃ df', add_derived_features df = .ok df' := by
  have s1 : ∃ d, derivedTipStep df = .ok d := by
    unfold derivedTipStep
    split
    · rename_i hP
      refine ⟨_, withColumn_ok_of ?_⟩
      intro n hn
      simp [tipExpr, Expr.refs] at hn
      rcases hn with h | h | h <;> subst h <;> tauto
    · exact ⟨df, rfl⟩
  obtain ⟨d1, h1⟩ := s1
  have s2 : ∃ d, derivedCategoryStep d1 = .ok d := by
    unfold derivedCategoryStep
    split
    · rename_i hP
      refine ⟨_, withColumn_ok_of ?_⟩
      intro n hn
      simp [categoryExpr, Expr.refs] at hn
      subst hn
      exact hP
    · exact ⟨d1, rfl⟩
  obtain ⟨d2, h2⟩ := s2
  have s3 : ∃ d, derivedAirportPickupStep d2 = .ok d := by
    unfold derivedAirportPickupStep
    split
    · rename_i hP
      refine ⟨_, withColumn_ok_of ?_⟩
      intro n hn
      simp [Expr.refs] at hn
      subst hn
      exact hP
    · exact ⟨d2, rfl⟩
  obtain ⟨d3, h3⟩ := s3
  have s4 : ∃ d, derivedAirportDropoffStep d3 = .ok d := by
    unfold derivedAirportDropoffStep
    split
    · rename_i hP
      refine ⟨_, withColumn_ok_of ?_⟩
      intro n hn
      simp [Expr.refs] at hn
      subst hn
      exact hP
    · exact ⟨d3, rfl⟩
  obtain ⟨d4, h4⟩ := s4
  have s5 : ∃ d, derivedAirportTripStep d4 = .ok d := by
    unfold derivedAirportTripStep
    split
    · rename_i hP
      refine ⟨_, withColumn_ok_of ?_⟩
      intro n hn
      simp [Expr.refs] at hn
      rcases hn with h | h <;> subst h <;> tauto
    · exact ⟨d4, rfl⟩
  obtain ⟨d5, h5⟩ := s5
  exact ⟨d5, by
    unfold add_derived_features
    rw [h1, exceptOk_bind, h2, exceptOk_bind, h3, exceptOk_bind, h4, exceptOk_bind, h5]⟩

/-- C9: whenever any of `pulocationid`, `dolocationid`, `payment_type` is
absent from the schema, `add_quality_flags` raises an unresolved-column error
instead of skipping the corresponding flag, whereas `add_derived_features`
(whose column references are all schema-guarded) still succeeds on the very
same input. -/
theorem claim9_quality_flags_error (df : DataFrame)
    (h : "pulocationid" ∉ df.cols ∨ "dolocationid" ∉ df.cols ∨ "payment_type" ∉ df.cols) :
    (∃ e, add_quality_flags df = .error e) ∧
    (∃ df', add_derived_features df = .ok df') := by
  refine ⟨?_, derived_steps_total df⟩
  unfold add_quality_flags
  by_cases hpu : "pulocationid" ∈ df.cols
  · by_cases hdo : "dolocationid" ∈ df.cols
    · have hpay : "payment_type" ∉ df.cols := by tauto
      have hok : df.withColumn "has_valid_locations" locFlagExpr =
          .ok (applyWith "has_valid_locations" locFlagExpr df) := by
        apply withColumn_ok_of
        intro n hn
        simp [locFlagExpr, Expr.refs] at hn
        rcases hn with h' | h' <;> subst h'
        · exact hpu
        · exact hdo
      have hbad : refsOk payFlagExpr (applyWith "has_valid_locations" locFlagExpr df) = false := by
        rw [Bool.eq_false_iff]
        intro hco
        have := refsOk_iff.mp hco "payment_type" (by simp [payFlagExpr, Expr.refs])
        rw [show (applyWith "has_valid_locations" locFlagExpr df).cols =
            insertCol "has_valid_locations" df.cols from rfl, mem_insertCol_iff] at this
        rcases this with h' | h'
        · exact hpay h'
        · exact absurd h' (by decide)
      have hstep2 : (applyWith "has_valid_locations" locFlagExpr df).withColumn
          "has_valid_payment" payFlagExpr =
          .error (.unresolvedColumns (refsMissing payFlagExpr
            (applyWith "has_valid_locations" locFlagExpr df))) := by
        simp [DataFrame.withColumn, hbad]
      exact ⟨_, by rw [hok, exceptOk_bind, hstep2]⟩
    · have hbad : refsOk locFlagExpr df = false := by
        rw [Bool.eq_false_iff]
        intro hco
        exact hdo (refsOk_iff.mp hco "dolocationid" (by simp [locFlagExpr, Expr.refs]))
      have hstep : df.withColumn "has_valid_locations" locFlagExpr =
          .error (.unresolvedColumns (refsMissing locFlagExpr df)) := by
        simp [DataFrame.withColumn, hbad]
      exact ⟨_, by rw [hstep, exceptError_bind]⟩
  · have hbad : refsOk locFlagExpr df = false := by
      rw [Bool.eq_false_iff]
      intro hco
      exact hpu (refsOk_iff.mp hco "pulocationid" (by simp [locFlagExpr, Expr.refs]))
    have hstep : df.withColumn "has_valid_locations" locFlagExpr =
        .error (.unresolvedColumns (refsMissing locFlagExpr df)) := by
      simp [DataFrame.withColumn, hbad]
    exact ⟨_, by rw [hstep, exceptError_bind]⟩

/-! Claim C5: Deduplicator (`remove_duplicates`). -/

theorem dedupRows_sublist_mem {ks : List String} :
    ∀ (rs : List Row) (seen : List (List (Option Val))) (r : Row),
      r ∈ dedupRows ks rs seen → r ∈ rs := by
  intro rs
  induction rs with
  | nil =>
    intro seen r h
    simp [dedupRows] at h
  | cons a as ih =>
    intro seen r h
    unfold dedupRows at h
    split at h
    · exact List.mem_cons_of_mem _ (ih _ _ h)
    · rcases List.mem_cons.mp h with rfl | h'
      · exact List.mem_cons_self _ _
      · exact List.mem_cons_of_mem _ (ih _ _ h')

theorem dedupRows_key_notin_seen {ks : List String} :
    ∀ (rs : List Row) (seen : List (List (Option Val))) (r : Row),
      r ∈ dedupRows ks rs seen → keyProj ks r ∉ seen := by
  intro rs
  induction rs with
  | nil =>
    intro seen r h
    simp [dedupRows] at h
  | cons a as ih =>
    intro seen r h
    unfold dedupRows at h
    split at h
    · exact ih _ _ h
    · rename_i hnot
      rcases List.mem_cons.mp h with rfl | h'
      · exact hnot
      · intro hmem
        exact (ih _ _ h') (List.mem_cons_of_mem _ hmem)

theorem dedupRows_pairwise {ks : List String} :
    ∀ (rs : List Row) (seen : List (List (Option Val))),
      (dedupRows ks rs seen).Pairwise (fun a b => keyProj ks a ≠ keyProj ks b) := by
  intro rs
  induction rs with
  | nil =>
    intro seen
    simp [dedupRows]
  | cons a as ih =>
    intro seen
    unfold dedupRows
    split
    · exact ih _
    · refine List.Pairwise.cons ?_ (ih _)
      intro b hb hkey
      exact (dedupRows_key_notin_seen as _ b hb) (by rw [← hkey]; exact List.mem_cons_self _ _)

theorem dedupRows_covers {ks : List String} :
    ∀ (rs : List Row) (seen : List (List (Option Val))) (r : Row), r ∈ rs →
      keyProj ks r ∈ seen ∨
        ∃ r' ∈ dedupRows ks rs seen, keyProj ks r' = keyProj ks r := by
  intro rs
  induction rs with
  | nil =>
    intro seen r h
    cases h
  | cons a as ih =>
    intro seen r h
    unfold dedupRows
    rcases List.mem_cons.mp h with rfl | h'
    · split
      · rename_i hin
        exact Or.inl hin
      · exact Or.inr ⟨r, List.mem_cons_self _ _, rfl⟩
    · split
      · exact ih _ _ h'
      · rcases ih (keyProj ks a :: seen) r h' with hin | ⟨r', hr', hk⟩
        · rcases List.mem_cons.mp hin with heq | hin'
          · exact Or.inr ⟨a, List.mem_cons_self _ _, heq.symm⟩
          · exact Or.inl hin'
        · exact Or.inr ⟨r', List.mem_cons_of_mem _ hr', hk⟩

/-- C5 counterexample: when none of the six key columns is present,
`remove_duplicates` returns the input unchanged, so its output can contain
two rows that share identical values on the present (empty) key subset —
the claimed uniqueness fails. -/
theorem claim5_counterexample :
    remove_duplicates wC5df = wC5df ∧
    (remove_duplicates wC5df).rows.length = 2 ∧
    ¬ (remove_duplicates wC5df).rows.Pairwise
        (fun a b => keyProj (existingKeyColumns wC5df) a ≠ keyProj (existingKeyColumns wC5df) b) := by
  refine ⟨rfl, rfl, ?_⟩
  intro hpw
  rw [show remove_duplicates wC5df = wC5df from rfl] at hpw
  cases hpw with
  | cons h _ => exact (h wC5row (List.mem_singleton.mpr rfl)) rfl

/-- C5 amended: provided at least one of the six key columns is present in
the schema, the output of `remove_duplicates` has pairwise-distinct
projections to the present key subset (exactly one row per distinct key
value: every input key value is still represented, every output row comes
from the input); when none is present the input is returned unchanged, so
the function never fails in either case. -/
theorem claim5_dedup_amended (df : DataFrame) (hne : existingKeyColumns df ≠ []) :
    (remove_duplicates df).rows.Pairwise
      (fun a b => keyProj (existingKeyColumns df) a ≠ keyProj (existingKeyColumns df) b) ∧
    (∀ r ∈ df.rows, ∃ r' ∈ (remove_duplicates df).rows,
      keyProj (existingKeyColumns df) r' = keyProj (existingKeyColumns df) r) ∧
    (∀ r ∈ (remove_duplicates df).rows, r ∈ df.rows) := by
  simp only [remove_duplicates]
  rw [if_neg hne]
  refine ⟨dedupRows_pairwise _ _, ?_, ?_⟩
  · intro r hr
    rcases dedupRows_covers df.rows [] r hr with hin | h
    · cases hin
    · exact h
  · intro r hr
    exact dedupRows_sublist_mem _ _ _ hr

/-! Claim C6: Aggregator — one missing prerequisite column and the fate of
the sibling summary tables (`trip_metrics_aggregation.main`). -/

theorem exceptPure_bind {α β ε : Type} (a : α) (k : α → Except ε β) :
    ((pure a : Except ε α) >>= k) = k a := rfl

theorem applyGroupAgg_cols (key : String) (aggs : List AggSpec) (df : DataFrame) :
    (applyGroupAgg key aggs df).cols = key :: aggs.map (fun a => a.outName) := rfl

theorem groupAgg_ok_of {key : String} {aggs : List AggSpec} {df : DataFrame}
    (hk : key ∈ df.cols) (hall : aggs.all (aggRefOk df.cols) = true) :
    groupAgg key aggs df = .ok (applyGroupAgg key aggs df) := by
  simp [groupAgg, hk, hall]

theorem orderByAsc_ok_of {df : DataFrame} {c : String} (h : c ∈ df.cols) :
    df.orderByAsc c = .ok ⟨df.cols, sortRowsBy (fun a b => valLE (a c) (b c)) df.rows⟩ := by
  simp [DataFrame.orderByAsc, h]

theorem orderByDesc_ok_of {df : DataFrame} {c : String} (h : c ∈ df.cols) :
    df.orderByDesc c = .ok ⟨df.cols, sortRowsBy (fun a b => valLE (b c) (a c)) df.rows⟩ := by
  simp [DataFrame.orderByDesc, h]

theorem filterE_ok_of_refsOk {df : DataFrame} {e : Expr} (h : refsOk e df = true) :
    df.filterE e = .ok (applyFilter e df) := by
  simp [DataFrame.filterE, h]

set_option maxHeartbeats 2000000 in
/-- C6 counterexample: on an input whose first aggregate's prerequisite
column (`pickup_hour`) is missing, `trip_metrics_aggregation.main` does not
skip that aggregate and continue — it aborts with an unresolved-column
error, so no sibling summary table is produced at all. -/
theorem claim6_counterexample :
    trip_metrics_main wC6df = .error (.unresolvedColumns ["pickup_hour"]) := rfl

theorem tmVolumeAggs_all_ok {cols : List String} (h1 : "trip_distance" ∈ cols)
    (h2 : "fare_amount" ∈ cols) (h3 : "total_amount" ∈ cols) :
    tmVolumeAggs.all (aggRefOk cols) = true := by
  simp [tmVolumeAggs, aggRefOk, h1, h2, h3]

theorem tmHourTable_ok {df : DataFrame} (hhour : "pickup_hour" ∈ df.cols)
    (hdist : "trip_distance" ∈ df.cols) (hfare : "fare_amount" ∈ df.cols)
    (htot : "total_amount" ∈ df.cols) :
    ∃ t, tmHourTable df = .ok t := by
  have h : tmHourTable df = .ok ⟨(applyGroupAgg "pickup_hour" tmVolumeAggs df).cols,
      sortRowsBy (fun a b => valLE (a "pickup_hour") (b "pickup_hour"))
        (applyGroupAgg "pickup_hour" tmVolumeAggs df).rows⟩ := by
    unfold tmHourTable
    rw [groupAgg_ok_of hhour (tmVolumeAggs_all_ok hdist hfare htot), exceptOk_bind,
      orderByAsc_ok_of (by rw [applyGroupAgg_cols]; exact List.mem_cons_self _ _)]
  exact ⟨_, h⟩

theorem tmDayTable_ok {df : DataFrame} (hdow : "pickup_day_of_week" ∈ df.cols)
    (hdist : "trip_distance" ∈ df.cols) (hfare : "fare_amount" ∈ df.cols)
    (htot : "total_amount" ∈ df.cols) :
    ∃ t, tmDayTable df = .ok t := by
  have h : tmDayTable df = .ok ⟨(applyGroupAgg "pickup_day_of_week" tmVolumeAggs df).cols,
      sortRowsBy (fun a b => valLE (a "pickup_day_of_week") (b "pickup_day_of_week"))
        (applyGroupAgg "pickup_day_of_week" tmVolumeAggs df).rows⟩ := by
    unfold tmDayTable
    rw [groupAgg_ok_of hdow (tmVolumeAggs_all_ok hdist hfare htot), exceptOk_bind,
      orderByAsc_ok_of (by rw [applyGroupAgg_cols]; exact List.mem_cons_self _ _)]
  exact ⟨_, h⟩

theorem tmZoneStep_names {df : DataFrame} (out : List (String × DataFrame))
    (hdist : "trip_distance" ∈ df.cols) (hfare : "fare_amount" ∈ df.cols)
    (htot : "total_amount" ∈ df.cols) :
    ∃ l, tmZoneStep df out = .ok (out ++ l) ∧
      l.map Prod.fst = (if "pulocationid" ∈ df.cols then ["trip_volume_by_zone"] else []) := by
  unfold tmZoneStep
  split
  · rename_i hpu
    rw [groupAgg_ok_of hpu (tmVolumeAggs_all_ok hdist hfare htot), exceptOk_bind,
      orderByDesc_ok_of (by rw [applyGroupAgg_cols]; simp [tmVolumeAggs]), exceptOk_bind]
    exact ⟨_, rfl, by simp [hpu]⟩
  · rename_i hpu
    exact ⟨[], by simp [exceptPure_ok], by simp [hpu]⟩

theorem tmDurationStep_names {df : DataFrame} (out : List (String × DataFrame))
    (hhour : "pickup_hour" ∈ df.cols) (hdist : "trip_distance" ∈ df.cols) :
    ∃ l, tmDurationStep df out = .ok (out ++ l) ∧
      l.map Prod.fst = (if "trip_duration_minutes" ∈ df.cols then
        "trip_duration_by_hour" ::
          (if "pulocationid" ∈ df.cols then ["trip_duration_by_zone"] else [])
       else []) := by
  unfold tmDurationStep
  split
  · rename_i hdur
    have hall : tmDurationAggs.all (aggRefOk df.cols) = true := by
      simp [tmDurationAggs, aggRefOk, hdur, hdist]
    rw [groupAgg_ok_of hhour hall, exceptOk_bind,
      orderByAsc_ok_of (by rw [applyGroupAgg_cols]; exact List.mem_cons_self _ _), exceptOk_bind]
    split
    · rename_i hpu
      rw [groupAgg_ok_of hpu hall, exceptOk_bind,
        orderByDesc_ok_of (by rw [applyGroupAgg_cols]; simp [tmDurationAggs]), exceptOk_bind]
      rw [List.append_assoc]
      exact ⟨_, rfl, by simp [hdur, hpu]⟩
    · rename_i hpu
      exact ⟨_, rfl, by simp [hdur, hpu]⟩
  · rename_i hdur
    exact ⟨[], by simp [exceptPure_ok], by simp [hdur]⟩

theorem tmSpeedStep_names {df : DataFrame} (out : List (String × DataFrame))
    (hhour : "pickup_hour" ∈ df.cols) (hdist : "trip_distance" ∈ df.cols) :
    ∃ l, tmSpeedStep df out = .ok (out ++ l) ∧
      l.map Prod.fst = (if "trip_speed_mph" ∈ df.cols then ["trip_speed_by_hour"] else []) := by
  unfold tmSpeedStep
  split
  · rename_i hspd
    rw [filterE_ok_of_refsOk (by simp [refsOk, Expr.refs, hspd]), exceptOk_bind,
      groupAgg_ok_of (show "pickup_hour" ∈ (applyFilter _ df).cols from hhour)
        (by simp [tmSpeedAggs, aggRefOk]
            exact ⟨show "trip_speed_mph" ∈ (applyFilter _ df).cols from hspd,
              show "trip_distance" ∈ (applyFilter _ df).cols from hdist⟩),
      exceptOk_bind,
      orderByAsc_ok_of (by rw [applyGroupAgg_cols]; exact List.mem_cons_self _ _), exceptOk_bind]
    exact ⟨_, rfl, by simp [hspd]⟩
  · rename_i hspd
    exact ⟨[], by simp [exceptPure_ok], by simp [hspd]⟩

theorem tmMonthlyStep_names {df : DataFrame} (out : List (String × DataFrame))
    (hdist : "trip_distance" ∈ df.cols) (hfare : "fare_amount" ∈ df.cols)
    (htot : "total_amount" ∈ df.cols) :
    ∃ l, tmMonthlyStep df out = .ok (out ++ l) ∧
      l.map Prod.fst = (if "pickup_month" ∈ df.cols then ["monthly_trends"] else []) := by
  unfold tmMonthlyStep
  split
  · rename_i hmon
    rw [groupAgg_ok_of hmon (by simp [tmMonthlyAggs, aggRefOk, hdist, hfare, htot]), exceptOk_bind,
      orderByAsc_ok_of (by rw [applyGroupAgg_cols]; exact List.mem_cons_self _ _), exceptOk_bind]
    exact ⟨_, rfl, by simp [hmon]⟩
  · rename_i hmon
    exact ⟨[], by simp [exceptPure_ok], by simp [hmon]⟩

theorem tmCategoryStep_names {df : DataFrame} (out : List (String × DataFrame))
    (hdist : "trip_distance" ∈ df.cols) (hfare : "fare_amount" ∈ df.cols)
    (htot : "total_amount" ∈ df.cols) :
    ∃ l, tmCategoryStep df out = .ok (out ++ l) ∧
      l.map Prod.fst =
        (if "trip_length_category" ∈ df.cols then ["trips_by_length_category"] else []) := by
  unfold tmCategoryStep
  split
  · rename_i hcat
    have hall : (tmCategoryAggs df).all (aggRefOk df.cols) = true := by
      by_cases hdur : "trip_duration_minutes" ∈ df.cols <;>
        simp [tmCategoryAggs, aggRefOk, hdist, hfare, htot, hdur]
    rw [groupAgg_ok_of hcat hall, exceptOk_bind,
      orderByAsc_ok_of (by rw [applyGroupAgg_cols]; exact List.mem_cons_self _ _), exceptOk_bind]
    exact ⟨_, rfl, by simp [hcat]⟩
  · rename_i hcat
    exact ⟨[], by simp [exceptPure_ok], by simp [hcat]⟩

theorem tmDeriveStep_skip {df : DataFrame} (hhour : "pickup_hour" ∈ df.cols) :
    tmDeriveStep df = .ok df := by
  unfold tmDeriveStep
  rw [if_neg (by simp [hhour])]
  rfl

/-- C6 amended: only the schema-guarded aggregates degrade gracefully.  When
`pickup_hour` and `pickup_day_of_week` are available (and the always-used
amount columns are present), the job succeeds and writes exactly the two
unconditional tables plus one table per satisfied guard: a missing
`pulocationid` (or `trip_duration_minutes`, `trip_speed_mph`,
`pickup_month`, `trip_length_category`) skips exactly its own tables while
every sibling table is still computed; but when the unguarded hourly
aggregate's prerequisite is missing the whole job fails (see the
counterexample). -/
theorem claim6_aggregator_amended (df : DataFrame)
    (hhour : "pickup_hour" ∈ df.cols) (hdow : "pickup_day_of_week" ∈ df.cols)
    (hdist : "trip_distance" ∈ df.cols) (hfare : "fare_amount" ∈ df.cols)
    (htot : "total_amount" ∈ df.cols) :
    Except.map (List.map Prod.fst) (trip_metrics_main df) =
      .ok (["trip_volume_by_hour", "trip_volume_by_day"] ++
        (if "pulocationid" ∈ df.cols then ["trip_volume_by_zone"] else []) ++
        (if "trip_duration_minutes" ∈ df.cols then
          "trip_duration_by_hour" ::
            (if "pulocationid" ∈ df.cols then ["trip_duration_by_zone"] else [])
         else []) ++
        (if "trip_speed_mph" ∈ df.cols then ["trip_speed_by_hour"] else []) ++
        (if "pickup_month" ∈ df.cols then ["monthly_trends"] else []) ++
        (if "trip_length_category" ∈ df.cols then ["trips_by_length_category"] else [])) := by
  obtain ⟨t1, ht1⟩ := tmHourTable_ok hhour hdist hfare htot
  obtain ⟨t2, ht2⟩ := tmDayTable_ok hdow hdist hfare htot
  obtain ⟨l3, h3, h3f⟩ := tmZoneStep_names
    [("trip_volume_by_hour", t1), ("trip_volume_by_day", t2)] hdist hfare htot
  obtain ⟨l4, h4, h4f⟩ := tmDurationStep_names
    ([("trip_volume_by_hour", t1), ("trip_volume_by_day", t2)] ++ l3) hhour hdist
  obtain ⟨l5, h5, h5f⟩ := tmSpeedStep_names
    ([("trip_volume_by_hour", t1), ("trip_volume_by_day", t2)] ++ l3 ++ l4) hhour hdist
  obtain ⟨l6, h6, h6f⟩ := tmMonthlyStep_names
    ([("trip_volume_by_hour", t1), ("trip_volume_by_day", t2)] ++ l3 ++ l4 ++ l5)
    hdist hfare htot
  obtain ⟨l7, h7, h7f⟩ := tmCategoryStep_names
    ([("trip_volume_by_hour", t1), ("trip_volume_by_day", t2)] ++ l3 ++ l4 ++ l5 ++ l6)
    hdist hfare htot
  have hmain : trip_metrics_main df =
      .ok ([("trip_volume_by_hour", t1), ("trip_volume_by_day", t2)] ++
        l3 ++ l4 ++ l5 ++ l6 ++ l7) := by
    unfold trip_metrics_main
    rw [tmDeriveStep_skip hhour]
    simp only [exceptOk_bind]
    rw [ht1]
    simp only [exceptOk_bind]
    rw [ht2]
    simp only [exceptOk_bind]
    rw [h3]
    simp only [exceptOk_bind]
    rw [h4]
    simp only [exceptOk_bind]
    rw [h5]
    simp only [exceptOk_bind]
    rw [h6]
    simp only [exceptOk_bind]
    rw [h7]
  rw [hmain]
  simp only [Except.map, List.map_append, h3f, h4f, h5f, h6f, h7f]
  simp

/-! Claim C10: in the composed cleaning job the NULL-speed branch is
unreachable — every surviving row has a numeric `trip_speed_mph`. -/

theorem filterE_presP (P : Row → Prop) {df d' : DataFrame} {e : Expr}
    (h : df.filterE e = .ok d')
    (hall : ∀ r ∈ df.rows, P r) : ∀ r' ∈ d'.rows, P r' := by
  obtain ⟨-, rfl⟩ := filterE_ok_iff.mp h
  intro r' hr'
  exact hall r' (mem_applyFilter.mp hr').1

theorem withColumn_presP (P : Option Val → Prop) {df d' : DataFrame} {n c : String} {e : Expr}
    (hne : n ≠ c) (h : df.withColumn c e = .ok d')
    (hall : ∀ r ∈ df.rows, P (r n)) : ∀ r' ∈ d'.rows, P (r' n) := by
  obtain ⟨-, rfl⟩ := withColumn_ok_iff.mp h
  intro r' hr'
  obtain ⟨r, hr, rfl⟩ := mem_applyWith.mp hr'
  rw [updRow_ne hne]
  exact hall r hr

theorem guardStep_presP (P : Option Val → Prop) {df d' : DataFrame} {Q : Prop} [Decidable Q]
    {n c : String} {e : Expr}
    (hne : n ≠ c) (h : (if Q then df.withColumn c e else pure df) = .ok d')
    (hall : ∀ r ∈ df.rows, P (r n)) : ∀ r' ∈ d'.rows, P (r' n) := by
  split at h
  · exact withColumn_presP P hne h hall
  · obtain rfl := exceptPure_ok.mp h
    exact hall

theorem remove_duplicates_rows_sub (df : DataFrame) :
    ∀ r ∈ (remove_duplicates df).rows, r ∈ df.rows := by
  simp only [remove_duplicates]
  split
  · exact fun r hr => hr
  · exact fun r hr => dedupRows_sublist_mem _ _ _ hr

theorem remove_null_sound {cs : List String} :
    ∀ {df d' : DataFrame}, remove_null_values df cs = .ok d' →
      ∀ r ∈ d'.rows, r ∈ df.rows ∧ ∀ c ∈ cs, r c ≠ none := by
  induction cs with
  | nil =>
    intro df d' h r hr
    obtain rfl : df = d' := by simpa [remove_null_values] using h
    exact ⟨hr, fun c hc => absurd hc (List.not_mem_nil c)⟩
  | cons c cs ih =>
    intro df d' h r hr
    unfold remove_null_values at h
    rw [exceptBind_ok] at h
    obtain ⟨d, hd, hrest⟩ := h
    obtain ⟨hrd, htail⟩ := ih hrest r hr
    obtain ⟨-, rfl⟩ := filterE_ok_iff.mp hd
    obtain ⟨hrdf, hpred⟩ := mem_applyFilter.mp hrd
    refine ⟨hrdf, ?_⟩
    intro c' hc'
    rcases List.mem_cons.mp hc' with rfl | hc'
    · intro hnone
      simp [Expr.eval, hnone] at hpred
    · exact htail c' hc'

theorem duration_filter_sound {df d' : DataFrame} {mn mx : ℚ}
    (h : validate_trip_duration df mn mx = .ok d') :
    ∀ r ∈ d'.rows, ∃ m : ℚ, r "trip_duration_minutes" = some (Val.num m) ∧ mn ≤ m ∧ m ≤ mx := by
  unfold validate_trip_duration at h
  obtain ⟨-, rfl⟩ := filterE_ok_iff.mp h
  intro r hr
  obtain ⟨-, hpred⟩ := mem_applyFilter.mp hr
  cases hv : r "trip_duration_minutes" with
  | none => simp [Expr.eval, cmp3, asNum, asBool3, and3, hv] at hpred
  | some v =>
    cases v with
    | num m =>
      refine ⟨m, rfl, ?_⟩
      simp [Expr.eval, cmp3, asNum, asBool3, and3_some_some, hv] at hpred
      exact hpred
    | str s => simp [Expr.eval, cmp3, asNum, asBool3, and3, hv] at hpred
    | bool b => simp [Expr.eval, cmp3, asNum, asBool3, and3, hv] at hpred

/-- C10: whenever `data_validation_cleaning_main` succeeds on an input whose
(standardized) rows carry only numeric (or NULL) `trip_distance` values,
every row of the written dataset has a non-NULL numeric `trip_speed_mph`:
the duration filter with `min_minutes = 1.0` runs before the speed
derivation, so the NULL-speed (stationary) branch is unreachable. -/
theorem claim10_speed_nonnull (df out : DataFrame)
    (hty : ∀ r ∈ (standardize_column_names df).rows, ∀ v, r "trip_distance" = some v →
      ∃ q, v = Val.num q)
    (h : data_validation_cleaning_main df = .ok out) :
    ∀ r ∈ out.rows, ∃ q, r "trip_speed_mph" = some (Val.num q) := by
  unfold data_validation_cleaning_main at h
  rw [exceptBind_ok] at h
  obtain ⟨d0, h0, h⟩ := h
  rw [exceptBind_ok] at h
  obtain ⟨d1, h1, h⟩ := h
  rw [exceptBind_ok] at h
  obtain ⟨d2, h2, h⟩ := h
  rw [exceptBind_ok] at h
  obtain ⟨d3, h3, h⟩ := h
  rw [exceptBind_ok] at h
  obtain ⟨d4, h4, h⟩ := h
  rw [exceptBind_ok] at h
  obtain ⟨d5, h5, h⟩ := h
  rw [exceptBind_ok] at h
  obtain ⟨d6, h6, h⟩ := h
  rw [exceptBind_ok] at h
  obtain ⟨d7, h7, h⟩ := h
  rw [exceptBind_ok] at h
  obtain ⟨d8, h8, h⟩ := h
  rw [exceptBind_ok] at h
  obtain ⟨d9, h9, h⟩ := h
  rw [exceptBind_ok] at h
  obtain ⟨d10, h10, h11⟩ := h
  set Pd : Option Val → Prop := fun ov => ∃ q, ov = some (Val.num q) with hPd
  -- after the null-drop, `trip_distance` is numeric on every row
  have hdist1 : ∀ r ∈ d1.rows, Pd (r "trip_distance") := by
    intro r hr
    obtain ⟨hmem, hnn⟩ := remove_null_sound h1 r hr
    have hnull := hnn "trip_distance" (by decide)
    cases hv : r "trip_distance" with
    | none => exact absurd hv hnull
    | some v =>
      obtain ⟨q, rfl⟩ := hty r hmem v hv
      exact ⟨q, rfl⟩
  -- preserved through the temporal validator
  have hdist2 : ∀ r ∈ d2.rows, Pd (r "trip_distance") := by
    unfold validate_trip_times at h2
    rw [exceptBind_ok] at h2
    obtain ⟨a, ha, h2⟩ := h2
    rw [exceptBind_ok] at h2
    obtain ⟨b, hb, h2⟩ := h2
    rw [exceptBind_ok] at h2
    obtain ⟨c, hc, h2⟩ := h2
    rw [exceptBind_ok] at h2
    obtain ⟨e, he, h2⟩ := h2
    exact filterE_presP _ h2 (filterE_presP _ he (filterE_presP _ hc
      (withColumn_presP Pd (by decide) hb (withColumn_presP Pd (by decide) ha hdist1))))
  -- and through the duration derivation and filter
  have hdist4 : ∀ r ∈ d4.rows, Pd (r "trip_distance") := by
    unfold validate_trip_duration at h4
    unfold calculate_trip_duration at h3
    exact filterE_presP _ h4 (withColumn_presP Pd (by decide) h3 hdist2)
  have hdur4 := duration_filter_sound h4
  -- the speed derivation produces a numeric speed on every row
  set Ps : Option Val → Prop := fun ov => ∃ q, ov = some (Val.num q) with hPs
  have hspeed5 : ∀ r' ∈ d5.rows, Ps ( r' "trip_speed_mph") := by
    unfold calculate_trip_speed at h5
    obtain ⟨-, rfl⟩ := withColumn_ok_iff.mp h5
    intro r' hr'
    obtain ⟨r, hr, rfl⟩ := mem_applyWith.mp hr'
    obtain ⟨m, hm, hm1, -⟩ := hdur4 r hr
    obtain ⟨x, hx⟩ := hdist4 r hr
    rw [updRow_self]
    have hmpos : (0 : ℚ) < m := lt_of_lt_of_le one_pos hm1
    have h60 : m / 60 ≠ 0 := div_ne_zero (ne_of_gt hmpos) (by norm_num)
    exact ⟨x / (m / 60), by simp [speedExpr, Expr.eval, cmp3, asNum, div3, hm, hx, hmpos, h60]⟩
  -- preserved through all remaining stages
  have hspeed6 : ∀ r' ∈ d6.rows, Ps ( r' "trip_speed_mph") := by
    unfold validate_trip_speed at h6
    exact filterE_presP _ h6 hspeed5
  have hspeed7 : ∀ r' ∈ d7.rows, Ps ( r' "trip_speed_mph") := by
    unfold filter_invalid_trips at h7
    rw [exceptBind_ok] at h7
    obtain ⟨a, ha, h7⟩ := h7
    exact filterE_presP _ h7 (filterE_presP _ ha hspeed6)
  have hspeed8 : ∀ r' ∈ d8.rows, Ps ( r' "trip_speed_mph") := by
    unfold validate_passenger_count at h8
    exact filterE_presP _ h8 hspeed7
  have hspeed8d : ∀ r' ∈ (remove_duplicates d8).rows, Ps ( r' "trip_speed_mph") :=
    fun r' hr' => hspeed8 r' (remove_duplicates_rows_sub d8 r' hr')
  have hspeed9 : ∀ r' ∈ d9.rows, Ps ( r' "trip_speed_mph") := by
    unfold add_temporal_features at h9
    rw [exceptBind_ok] at h9
    obtain ⟨a, ha, h9⟩ := h9
    rw [exceptBind_ok] at h9
    obtain ⟨b, hb, h9⟩ := h9
    rw [exceptBind_ok] at h9
    obtain ⟨c, hc, h9⟩ := h9
    rw [exceptBind_ok] at h9
    obtain ⟨e, he, h9⟩ := h9
    rw [exceptBind_ok] at h9
    obtain ⟨f, hf, h9⟩ := h9
    exact withColumn_presP Ps (by decide) h9 (withColumn_presP Ps (by decide) hf
      (withColumn_presP Ps (by decide) he (withColumn_presP Ps (by decide) hc
        (withColumn_presP Ps (by decide) hb (withColumn_presP Ps (by decide) ha hspeed8d)))))
  have hspeed10 : ∀ r' ∈ d10.rows, Ps ( r' "trip_speed_mph") := by
    unfold add_derived_features at h10
    rw [exceptBind_ok] at h10
    obtain ⟨a, ha, h10⟩ := h10
    rw [exceptBind_ok] at h10
    obtain ⟨b, hb, h10⟩ := h10
    rw [exceptBind_ok] at h10
    obtain ⟨c, hc, h10⟩ := h10
    rw [exceptBind_ok] at h10
    obtain ⟨e, he, h10⟩ := h10
    unfold derivedTipStep at ha
    unfold derivedCategoryStep at hb
    unfold derivedAirportPickupStep at hc
    unfold derivedAirportDropoffStep at he
    unfold derivedAirportTripStep at h10
    exact guardStep_presP Ps (by decide) h10 (guardStep_presP Ps (by decide) he
      (guardStep_presP Ps (by decide) hc (guardStep_presP Ps (by decide) hb
        (guardStep_presP Ps (by decide) ha hspeed9))))
  unfold add_quality_flags at h11
  rw [exceptBind_ok] at h11
  obtain ⟨a, ha, h11⟩ := h11
  exact withColumn_presP Ps (by decide) h11 (withColumn_presP Ps (by decide) ha hspeed10)

/-! Concrete witness inputs and witness theorems. -/

theorem claim1_witness :
    ("trip_duration_minutes" ∈ wC1df.cols ∧ "trip_distance" ∈ wC1df.cols ∧
      wC1row ∈ wC1df.rows ∧
      wC1row "trip_duration_minutes" = some (Val.num 0) ∧
      wC1row "trip_distance" = some (Val.num 7)) ∧
    (∃ df₁ df₂,
      calculate_trip_speed wC1df = .ok df₁ ∧
      validate_trip_speed df₁ 1 100 = .ok df₂ ∧
      updRow "trip_speed_mph"
        (if (0 : ℚ) < 0 then some (Val.num (7 / (0 / 60))) else none) wC1row ∈ df₁.rows ∧
      (updRow "trip_speed_mph"
          (if (0 : ℚ) < 0 then some (Val.num (7 / (0 / 60))) else none) wC1row ∈ df₂.rows ↔
        ((0 : ℚ) ≤ 0 ∨ ((1 : ℚ) ≤ 7 / (0 / 60) ∧ (7 : ℚ) / (0 / 60) ≤ 100)))) :=
  ⟨⟨by decide, by decide, List.mem_singleton.mpr rfl, rfl, rfl⟩,
    claim1_speed_validator wC1df 1 100 wC1row 0 7 (by decide) (by decide)
      (List.mem_singleton.mpr rfl) rfl rfl⟩

theorem claim2_witness :
    ("tpep_pickup_datetime" ∈ wC2df.cols ∧ "tpep_dropoff_datetime" ∈ wC2df.cols ∧
      wC2row ∈ wC2df.rows ∧
      wC2row "tpep_pickup_datetime" = some (Val.num 0) ∧
      wC2row "tpep_dropoff_datetime" = some (Val.num 600)) ∧
    (∃ df₁ df₂ df₃,
      validate_trip_times wC2df = .ok df₁ ∧
      (updRow "dropoff_ts" (some (Val.num 600)) (updRow "pickup_ts" (some (Val.num 0)) wC2row) ∈
          df₁.rows ↔ ((0 : ℚ) < 600 ∧ (0 : ℚ) ≤ nowBound ∧ (600 : ℚ) ≤ nowBound)) ∧
      calculate_trip_duration df₁ = .ok df₂ ∧
      validate_trip_duration df₂ 1 1440 = .ok df₃ ∧
      (updRow "trip_duration_minutes" (some (Val.num ((600 - 0) / 60)))
          (updRow "dropoff_ts" (some (Val.num 600))
            (updRow "pickup_ts" (some (Val.num 0)) wC2row)) ∈ df₃.rows ↔
        (((0 : ℚ) < 600 ∧ (0 : ℚ) ≤ nowBound ∧ (600 : ℚ) ≤ nowBound) ∧
          (1 : ℚ) ≤ (600 - 0) / 60 ∧ ((600 : ℚ) - 0) / 60 ≤ 1440))) :=
  ⟨⟨by decide, by decide, List.mem_singleton.mpr rfl, rfl, rfl⟩,
    claim2_temporal_validator wC2df wC2row 0 600 1 1440 (by decide) (by decide)
      (List.mem_singleton.mpr rfl) rfl rfl⟩

theorem claim3_witness :
    (add_derived_features wC3df = .ok wC3out ∧ "trip_distance" ∈ wC3df.cols ∧
      wC3orow ∈ wC3out.rows ∧ wC3orow "trip_distance" = some (Val.num 2) ∧ (0 : ℚ) ≤ 2) ∧
    ((wC3orow "trip_length_category" = some (Val.str "short") ↔ (2 : ℚ) < 2) ∧
     (wC3orow "trip_length_category" = some (Val.str "medium") ↔ (2 : ℚ) ≤ 2 ∧ (2 : ℚ) < 5) ∧
     (wC3orow "trip_length_category" = some (Val.str "long") ↔ (5 : ℚ) ≤ 2)) :=
  ⟨⟨rfl, by decide, List.mem_singleton.mpr rfl, rfl, by norm_num⟩,
    claim3_length_category wC3df wC3out rfl (by decide) wC3orow
      (List.mem_singleton.mpr rfl) 2 rfl (by norm_num)⟩

theorem claim4_witness :
    (add_derived_features wC4df = .ok wC4out ∧ "tip_amount" ∈ wC4df.cols ∧
      "total_amount" ∈ wC4df.cols ∧ wC4orow ∈ wC4out.rows ∧
      wC4orow "tip_amount" = some (Val.num 5) ∧ wC4orow "total_amount" = some (Val.num 0)) ∧
    wC4orow "tip_percentage" = some (Val.num (if (0 : ℚ) < 0 then 5 / 0 * 100 else 0)) :=
  ⟨⟨rfl, by decide, by decide, List.mem_singleton.mpr rfl, rfl, rfl⟩,
    claim4_tip_percentage wC4df wC4out rfl (by decide) (by decide) wC4orow
      (List.mem_singleton.mpr rfl) 5 0 rfl rfl⟩

theorem claim5_witness :
    existingKeyColumns wC5vdf ≠ [] ∧
    ((remove_duplicates wC5vdf).rows.Pairwise
      (fun a b => keyProj (existingKeyColumns wC5vdf) a ≠ keyProj (existingKeyColumns wC5vdf) b) ∧
    (∀ r ∈ wC5vdf.rows, ∃ r' ∈ (remove_duplicates wC5vdf).rows,
      keyProj (existingKeyColumns wC5vdf) r' = keyProj (existingKeyColumns wC5vdf) r) ∧
    (∀ r ∈ (remove_duplicates wC5vdf).rows, r ∈ wC5vdf.rows)) :=
  ⟨by decide, claim5_dedup_amended wC5vdf (by decide)⟩

theorem claim6_witness :
    ("pickup_hour" ∈ wC6vdf.cols ∧ "pickup_day_of_week" ∈ wC6vdf.cols ∧
      "trip_distance" ∈ wC6vdf.cols ∧ "fare_amount" ∈ wC6vdf.cols ∧
      "total_amount" ∈ wC6vdf.cols) ∧
    Except.map (List.map Prod.fst) (trip_metrics_main wC6vdf) =
      .ok (["trip_volume_by_hour", "trip_volume_by_day"] ++
        (if "pulocationid" ∈ wC6vdf.cols then ["trip_volume_by_zone"] else []) ++
        (if "trip_duration_minutes" ∈ wC6vdf.cols then
          "trip_duration_by_hour" ::
            (if "pulocationid" ∈ wC6vdf.cols then ["trip_duration_by_zone"] else [])
         else []) ++
        (if "trip_speed_mph" ∈ wC6vdf.cols then ["trip_speed_by_hour"] else []) ++
        (if "pickup_month" ∈ wC6vdf.cols then ["monthly_trends"] else []) ++
        (if "trip_length_category" ∈ wC6vdf.cols then ["trips_by_length_category"] else [])) :=
  ⟨⟨by decide, by decide, by decide, by decide, by decide⟩,
    claim6_aggregator_amended wC6vdf (by decide) (by decide) (by decide) (by decide) (by decide)⟩

theorem claim7_witness :
    validate_required_columns wC7df ["a", "b"] = .error (.missingColumns ["b"]) ∧
    data_validation_cleaning_main wC7df = .error (.missingColumns criticalColumns) :=
  ⟨(claim7_schema_guard wC7df ["a", "b"]).2.1 ⟨"b", by decide, by decide⟩,
    (claim7_schema_guard wC7df ["a", "b"]).2.2
      ⟨"tpep_pickup_datetime", by decide, by decide⟩⟩

theorem claim8_witness :
    (remove_null_values wC8df ["trip_distance"] = .ok wC8null ∧
      wC8null.rows.length ≤ wC8df.rows.length) ∧
    (validate_trip_times wC8df = .ok wC8tt ∧ wC8tt.rows.length ≤ wC8df.rows.length) ∧
    (validate_trip_duration wC8df 1 1440 = .ok wC8dur ∧
      wC8dur.rows.length ≤ wC8df.rows.length) ∧
    (validate_trip_speed wC8df 1 100 = .ok wC8spd ∧
      wC8spd.rows.length ≤ wC8df.rows.length) ∧
    (filter_invalid_trips wC8df "fare_amount" "trip_distance" = .ok wC8fit ∧
      wC8fit.rows.length ≤ wC8df.rows.length) ∧
    (validate_passenger_count wC8df 6 = .ok wC8pass ∧
      wC8pass.rows.length ≤ wC8df.rows.length) ∧
    (add_quality_flags wC8df = .ok wC8q ∧ wC8q.rows.length = wC8df.rows.length) :=
  ⟨⟨rfl, claim8_row_count_monotone.1 wC8df ["trip_distance"] wC8null rfl⟩,
   ⟨rfl, claim8_row_count_monotone.2.1 wC8df wC8tt rfl⟩,
   ⟨rfl, claim8_row_count_monotone.2.2.1 wC8df 1 1440 wC8dur rfl⟩,
   ⟨rfl, claim8_row_count_monotone.2.2.2.1 wC8df 1 100 wC8spd rfl⟩,
   ⟨rfl, claim8_row_count_monotone.2.2.2.2.1 wC8df "fare_amount" "trip_distance" wC8fit rfl⟩,
   ⟨rfl, claim8_row_count_monotone.2.2.2.2.2.1 wC8df 6 wC8pass rfl⟩,
   ⟨rfl, claim8_row_count_monotone.2.2.2.2.2.2 wC8df wC8q rfl⟩⟩

theorem claim9_witness :
    ("pulocationid" ∉ wC9df.cols ∨ "dolocationid" ∉ wC9df.cols ∨
      "payment_type" ∉ wC9df.cols) ∧
    ((∃ e, add_quality_flags wC9df = .error e) ∧
      (∃ df', add_derived_features wC9df = .ok df')) :=
  ⟨Or.inl (by decide), claim9_quality_flags_error wC9df (Or.inl (by decide))⟩

theorem wC10df_distance_typed :
    ∀ r ∈ (standardize_column_names wC10df).rows, ∀ v, r "trip_distance" = some v →
      ∃ q, v = Val.num q := by
  intro r hr v hv
  rw [show (standardize_column_names wC10df).rows = [wC10row] from rfl] at hr
  rw [List.mem_singleton] at hr
  subst hr
  rw [show wC10row "trip_distance" = some (Val.num 3) from rfl] at hv
  obtain rfl : Val.num 3 = v := by injection hv
  exact ⟨3, rfl⟩

theorem claim10_witness :
    ((∀ r ∈ (standardize_column_names wC10df).rows, ∀ v, r "trip_distance" = some v →
        ∃ q, v = Val.num q) ∧
      data_validation_cleaning_main wC10df = .ok wC10out) ∧
    (∀ r ∈ wC10out.rows, ∃ q, r "trip_speed_mph" = some (Val.num q)) :=
  ⟨⟨wC10df_distance_typed, rfl⟩,
    claim10_speed_nonnull wC10df wC10out wC10df_distance_typed rfl⟩

end NycTaxi
